import Mathlib

/-! AQUA system: flood early-warning monitor (`aqua_system.cpp`)

A shallow embedding of the firmware's single cooperative loop and of its helper
functions, followed by theorems about the hazard classifier, the soil mapping,
the upload coordinator and the alarm sequencer.

Modelling conventions

* `int` / `long` values are `Int`; the one place where an intermediate product is
  formed (`map`) wraps to 32 bits explicitly.
* `unsigned long` tick counts are `Nat`; every elapsed-time computation goes
  through `usub`, the 32-bit unsigned subtraction.
* a `float` is represented by the rational number it denotes.  Every float the
  program handles is finite (it is `0.0`, `999.0` or a product of bounded
  factors), comparisons of finite floats are exact, and the single-precision
  rounding of the one arithmetic expression (`getDistance`) is `f32`.
* calls into the platform (pins, tone generator, display, serial port, datastore)
  are recorded as a list of `Action`s; what the platform returns (tick counter,
  ADC samples, echo duration, datastore readiness, local time) is an `Env`.
-/

namespace AquaSystem

/-! ## Configuration constants -/

def TRIG_PIN : Nat := 5
def ECHO_PIN : Nat := 18
def RAIN_PIN : Nat := 35
def SOIL_PIN : Nat := 34
def BUZZER_HIGH : Nat := 12
def BUZZER_LOW : Nat := 13
def LED_GREEN : Nat := 26
def LED_YELLOW : Nat := 27
def LED_RED : Nat := 25

def SOIL_DRY : Int := 3175
def SOIL_WET : Int := 2000
def RAIN_HEAVY_THRESH : Int := 1500
def RAIN_LIGHT_THRESH : Int := 2500
def WATER_DANGER_CM : Int := 45
def WATER_WARN_CM : Int := 55

/-! ## Machine arithmetic -/

/-- Number of values of an `unsigned long` (32 bits on the target). -/
def U32 : Nat := 4294967296

/-- Unsigned 32-bit subtraction `a - b`, as in `currentMillis - lastSensorRead`. -/
def usub (a b : Nat) : Nat := (a % U32 + (U32 - b % U32)) % U32

/-- Reduction of an integer to the range of a 32-bit signed `long`. -/
def wrap32 (x : Int) : Int := (x + 2147483648) % 4294967296 - 2147483648

/-- Nearest integer to a rational, ties going to the even neighbour. -/
def roundHalfEven (q : ℚ) : Int :=
  let f := ⌊q⌋
  let r := q - f
  if r < 1 / 2 then f else if 1 / 2 < r then f + 1 else if f % 2 = 0 then f else f + 1

/-- Rounding of a rational to the nearest single-precision float (24-bit
significand, ties to even); exponent range is not modelled, the values the
program computes stay far inside it. -/
def f32 (q : ℚ) : ℚ :=
  if q = 0 then 0
  else
    let ulp : ℚ := 2 ^ (Int.log 2 |q| - 23)
    roundHalfEven (q / ulp) * ulp

/-- The constant `const float SOUND_SPEED = 0.0343`. -/
def SOUND_SPEED : ℚ := f32 (343 / 10000)

/-- Arduino `map(x, in_min, in_max, out_min, out_max)` on `long`:
`(x - in_min) * (out_max - out_min) / (in_max - in_min) + out_min`
with C division (truncation toward zero). -/
def map (x in_min in_max out_min out_max : Int) : Int :=
  wrap32 (Int.tdiv (wrap32 (wrap32 (x - in_min) * wrap32 (out_max - out_min)))
    (wrap32 (in_max - in_min)) + out_min)

/-- Arduino `constrain(amt, low, high)`:
`((amt)<(low)?(low):((amt)>(high)?(high):(amt)))`. -/
def constrain (amt low high : Int) : Int :=
  if amt < low then low else if amt > high then high else amt

/-- Conversion `(int)distance` of a float to an integer: truncation toward zero. -/
def truncToInt (q : ℚ) : Int := Int.tdiv q.num q.den

/-! ## Sensor sampling and classification -/

/-- The two statements of `loop` computing `soilPercent` from `soilRaw`. -/
def soilPercentOf (soilRaw : Int) : Int :=
  constrain (map soilRaw SOIL_DRY SOIL_WET 0 100) 0 100

/-- The value returned by `getDistance`, given the echo duration that `pulseIn`
reported (0 on timeout). -/
def getDistance (duration : Int) : ℚ :=
  if duration = 0 then 999
  else f32 (f32 (f32 duration * SOUND_SPEED) / 2)

/-- The hybrid logic of `loop`: the value assigned to `systemState`
(0 = SAFE, 1 = WARNING, 2 = DANGER). -/
def classify (distance : ℚ) (rainRaw soilPercent : Int) : Int :=
  if distance < (WATER_DANGER_CM : ℚ) then 2
  else if distance < (WATER_WARN_CM : ℚ) ∧
      (rainRaw < RAIN_HEAVY_THRESH ∨ soilPercent > 80) then 2
  else if distance < (WATER_WARN_CM : ℚ) ∨ rainRaw < RAIN_LIGHT_THRESH ∨
      soilPercent > 50 then 1
  else 0

/-! ## Program state, platform inputs and platform calls -/

/-- The record assembled in the global `json` object and pushed to `/AQUA/History`. -/
structure Record where
  water : ℚ
  soil : Int
  rain : Int
  status : String
  timestamp : String
  deriving DecidableEq

/-- One call into the platform, in program order. -/
inductive Action where
  | digitalWrite (pin : Nat) (high : Bool)
  | delayMicroseconds (us : Nat)
  | analogRead (pin : Nat)
  | pulseIn (pin : Nat) (high : Bool) (timeoutUs : Nat)
  | tone (pin freq : Nat)
  | noTone (pin : Nat)
  | serialPrint (text : String)
  | serialPrintln (text : String)
  | lcdClear
  | lcdSetCursor (col row : Nat)
  | lcdPrint (text : String)
  | lcdPrintInt (value : Int)
  | setFloat (path : String) (value : ℚ)
  | setInt (path : String) (value : Int)
  | setString (path : String) (value : String)
  | pushJSON (path : String) (record : Record)
  | firebaseReady
  deriving DecidableEq

/-- The global variables, the `static` locals of `loop`, and the level of the
output pins the program drives (three LEDs, two tone channels with the frequency
being generated, if any). -/
structure State where
  lastScreenUpdate : Nat
  lastSensorRead : Nat
  buzzerTimer : Nat
  lastFirebaseUpload : Nat
  lastHistoryLog : Nat
  systemState : Int
  lastSystemState : Int
  buzzerStep : Int
  lcdScreenOne : Bool
  wifiConnected : Bool
  rainRaw : Int
  soilPercent : Int
  distance : ℚ
  ledGreen : Bool
  ledYellow : Bool
  ledRed : Bool
  toneHigh : Option Nat
  toneLow : Option Nat
  deriving DecidableEq

/-- What the platform returns during one pass of `loop`; a value is consulted
only if the corresponding call is reached. -/
structure Env where
  /-- Result of `millis()` at the top of `loop`. -/
  currentMillis : Nat
  /-- Result of `analogRead(RAIN_PIN)`. -/
  rainSample : Int
  /-- Result of `analogRead(SOIL_PIN)`. -/
  soilSample : Int
  /-- Result of `pulseIn(ECHO_PIN, HIGH, 30000)`. -/
  echoDuration : Int
  /-- Result of `Firebase.ready()`. -/
  firebaseReady : Bool
  /-- Result of the first `millis()` in `sendToFirebase` (the throttle test). -/
  millisAtTest : Nat
  /-- Result of the second `millis()` in `sendToFirebase` (the new `lastHistoryLog`). -/
  millisAtLog : Nat
  /-- The formatted local time, `none` when `getLocalTime` fails. -/
  localTime : Option String

/-- The values of the globals when `loop` first runs; `wifi` is the outcome of
the connection attempt made by `setup`. -/
def initialState (wifi : Bool) : State :=
  { lastScreenUpdate := 0, lastSensorRead := 0, buzzerTimer := 0,
    lastFirebaseUpload := 0, lastHistoryLog := 0, systemState := 0,
    lastSystemState := -1, buzzerStep := 0, lcdScreenOne := true,
    wifiConnected := wifi, rainRaw := 4095, soilPercent := 0, distance := 0,
    ledGreen := false, ledYellow := false, ledRed := false,
    toneHigh := none, toneLow := none }

/-! ## Helper functions of the program -/

/-- The platform calls made by `getDistance`, in order. -/
def getDistanceActions : List Action :=
  [Action.digitalWrite TRIG_PIN false, Action.delayMicroseconds 2,
   Action.digitalWrite TRIG_PIN true, Action.delayMicroseconds 10,
   Action.digitalWrite TRIG_PIN false, Action.pulseIn ECHO_PIN true 30000]

/-- The string returned by `getFormattedTime`. -/
def getFormattedTime (localTime : Option String) : String :=
  match localTime with
  | none => "N/A"
  | some t => t

/-- The value of `statusStr` in `sendToFirebase`. -/
def statusStr (state : Int) : String :=
  let s0 := "SAFE"
  let s1 := if state = 1 then "WARNING" else s0
  if state = 2 then "DANGER" else s1

/-- The function `silenceBuzzers`. -/
def silenceBuzzers (s : State) : State × List Action :=
  ({ s with toneHigh := none, toneLow := none, buzzerStep := 0 },
   [Action.noTone BUZZER_HIGH, Action.noTone BUZZER_LOW])

/-- The function `playPJLAlarm`. -/
def playPJLAlarm (currentMillis : Nat) (s : State) : State × List Action :=
  if usub currentMillis s.buzzerTimer > 100 then
    if s.buzzerStep = 0 then
      ({ s with toneHigh := some 2000, buzzerTimer := currentMillis, buzzerStep := 1 },
       [Action.tone BUZZER_HIGH 2000])
    else if s.buzzerStep = 1 ∧ usub currentMillis s.buzzerTimer > 600 then
      ({ s with toneHigh := none, buzzerTimer := currentMillis, buzzerStep := 2 },
       [Action.noTone BUZZER_HIGH])
    else if s.buzzerStep = 2 ∧ usub currentMillis s.buzzerTimer > 100 then
      ({ s with toneLow := some 1500, buzzerTimer := currentMillis, buzzerStep := 3 },
       [Action.tone BUZZER_LOW 1500])
    else if s.buzzerStep = 3 ∧ usub currentMillis s.buzzerTimer > 600 then
      ({ s with toneLow := none, buzzerTimer := currentMillis, buzzerStep := 4 },
       [Action.noTone BUZZER_LOW])
    else if s.buzzerStep = 4 ∧ usub currentMillis s.buzzerTimer > 100 then
      ({ s with buzzerStep := 0 }, [])
    else (s, [])
  else (s, [])

/-- The function `sendToFirebase(dist, rain, soil, state)`.  Its first platform
call is the query `Firebase.ready()`, made on every invocation. -/
def sendToFirebase (e : Env) (dist : ℚ) (rain soil state : Int) (s : State) :
    State × List Action :=
  if e.firebaseReady then
    let live : List Action :=
      [Action.setFloat "/AQUA/Current/water" dist,
       Action.setInt "/AQUA/Current/soil" soil,
       Action.setInt "/AQUA/Current/rain" rain,
       Action.setString "/AQUA/Current/status" (statusStr state)]
    let timeToLog : Bool := decide (usub e.millisAtTest s.lastHistoryLog > 300000)
    let criticalEvent : Bool := decide (state = 2)
    if timeToLog || criticalEvent then
      let timeStr := getFormattedTime e.localTime
      ({ s with lastHistoryLog := e.millisAtLog },
       [Action.firebaseReady] ++ live ++
       [Action.pushJSON "/AQUA/History"
          { water := dist, soil := soil, rain := rain, status := statusStr state,
            timestamp := timeStr },
        Action.serialPrint ">> HISTORY LOG SAVED: ",
        Action.serialPrintln timeStr])
    else (s, [Action.firebaseReady] ++ live)
  else (s, [Action.firebaseReady])

/-! ## The four sections of `loop` -/

/-- Section 1 of `loop`, SENSOR READING. -/
def sensorReading (e : Env) (s : State) : State × List Action :=
  if usub e.currentMillis s.lastSensorRead > 100 then
    let rainRaw := e.rainSample
    let soilPercent := soilPercentOf e.soilSample
    let distance := getDistance e.echoDuration
    ({ s with lastSensorRead := e.currentMillis, rainRaw := rainRaw,
              soilPercent := soilPercent, distance := distance,
              systemState := classify distance rainRaw soilPercent },
     [Action.analogRead RAIN_PIN, Action.analogRead SOIL_PIN] ++ getDistanceActions)
  else (s, [])

/-- Section 2 of `loop`, SMART UPLOAD. -/
def smartUpload (e : Env) (s : State) : State × List Action :=
  if s.wifiConnected then
    let timeToSend : Bool := decide (usub e.currentMillis s.lastFirebaseUpload > 5000)
    let stateChanged : Bool := decide (s.systemState ≠ s.lastSystemState)
    if timeToSend || stateChanged then
      let s1 := { s with lastFirebaseUpload := e.currentMillis,
                         lastSystemState := s.systemState }
      let notice : List Action :=
        if stateChanged then [Action.serialPrintln ">> STATE CHANGE: Uploading..."] else []
      let r := sendToFirebase e s1.distance s1.rainRaw s1.soilPercent s1.systemState s1
      (r.1, notice ++ r.2)
    else (s, [])
  else (s, [])

/-- Section 3 of `loop`, OUTPUT CONTROL. -/
def outputControl (e : Env) (s : State) : State × List Action :=
  if s.systemState = 0 then
    let r := silenceBuzzers { s with ledGreen := true, ledYellow := false, ledRed := false }
    (r.1, [Action.digitalWrite LED_GREEN true, Action.digitalWrite LED_YELLOW false,
           Action.digitalWrite LED_RED false] ++ r.2)
  else if s.systemState = 1 then
    let r := silenceBuzzers { s with ledGreen := false, ledYellow := true, ledRed := false }
    (r.1, [Action.digitalWrite LED_GREEN false, Action.digitalWrite LED_YELLOW true,
           Action.digitalWrite LED_RED false] ++ r.2)
  else if s.systemState = 2 then
    let r := playPJLAlarm e.currentMillis
      { s with ledGreen := false, ledYellow := false, ledRed := true }
    (r.1, [Action.digitalWrite LED_GREEN false, Action.digitalWrite LED_YELLOW false,
           Action.digitalWrite LED_RED true] ++ r.2)
  else (s, [])

/-- Section 4 of `loop`, LCD DASHBOARD. -/
def lcdDashboard (e : Env) (s : State) : State × List Action :=
  if usub e.currentMillis s.lastScreenUpdate > 3000 then
    let s1 := { s with lastScreenUpdate := e.currentMillis,
                       lcdScreenOne := !s.lcdScreenOne }
    if s1.lcdScreenOne then
      (s1, [Action.lcdClear, Action.lcdSetCursor 0 0,
            Action.lcdPrint
              (if s1.systemState = 2 then "STATUS: DANGER!"
               else if s1.systemState = 1 then "STATUS: WARNING"
               else "STATUS: SAFE"),
            Action.lcdSetCursor 0 1,
            Action.lcdPrint "W:", Action.lcdPrintInt (truncToInt s1.distance),
            Action.lcdPrint "cm S:", Action.lcdPrintInt s1.soilPercent,
            Action.lcdPrint "%"])
    else
      (s1, [Action.lcdClear, Action.lcdSetCursor 0 0,
            Action.lcdPrint "Rain Intensity:",
            Action.lcdSetCursor 0 1,
            Action.lcdPrint
              (if s1.rainRaw < RAIN_HEAVY_THRESH then ">> HEAVY <<"
               else if s1.rainRaw < RAIN_LIGHT_THRESH then ">> Moderate <<"
               else ">> None/Light <<")])
  else (s, [])

/-- One pass of `loop`: the four sections in order, with the state after the
pass and the platform calls made during it. -/
def loop (e : Env) (s : State) : State × List Action :=
  let r1 := sensorReading e s
  let r2 := smartUpload e r1.1
  let r3 := outputControl e r2.1
  let r4 := lcdDashboard e r3.1
  (r4.1, r1.2 ++ r2.2 ++ r3.2 ++ r4.2)

/-- Successive passes of `loop`, one per element of `es`; returns the final state
and the platform calls of all passes in order. -/
def run (es : List Env) (s : State) : State × List Action :=
  match es with
  | [] => (s, [])
  | e :: rest =>
    let r := loop e s
    let r2 := run rest r.1
    (r2.1, r.2 ++ r2.2)

/-! ## Call sequences of the alarm sequencer -/

/-- One call of the alarm sequencer's interface: `playPJLAlarm(currentMillis)`
or `silenceBuzzers()`. -/
inductive BuzzerCall where
  | play (currentMillis : Nat)
  | silence
  deriving DecidableEq

/-- The state after one call of the alarm sequencer's interface. -/
def applyCall (s : State) (c : BuzzerCall) : State :=
  match c with
  | BuzzerCall.play t => (playPJLAlarm t s).1
  | BuzzerCall.silence => (silenceBuzzers s).1

/-- The state after a sequence of calls, made in list order. -/
def applyCalls (cs : List BuzzerCall) (s : State) : State :=
  cs.foldl applyCall s

/-! ## Observations on a list of platform calls -/

/-- Whether a platform call appends a record to the history collection. -/
def Action.isHistoryPush (a : Action) : Bool :=
  match a with
  | Action.pushJSON _ _ => true
  | _ => false

/-- Number of history records appended by a list of platform calls. -/
def historyCount (as : List Action) : Nat := (as.filter Action.isHistoryPush).length

/-- Whether a platform call is part of local signalling or sensing: everything
except the serial port and the datastore. -/
def Action.isLocal (a : Action) : Bool :=
  match a with
  | Action.serialPrint _ => false
  | Action.serialPrintln _ => false
  | Action.setFloat _ _ => false
  | Action.setInt _ _ => false
  | Action.setString _ _ => false
  | Action.pushJSON _ _ => false
  | Action.firebaseReady => false
  | _ => true

/-- Whether a platform call starts or stops a tone channel. -/
def Action.isToneCall (a : Action) : Bool :=
  match a with
  | Action.tone _ _ => true
  | Action.noTone _ => true
  | _ => false

/-- Whether a platform call reads a sensor. -/
def Action.isSensorRead (a : Action) : Bool :=
  match a with
  | Action.analogRead _ => true
  | Action.pulseIn _ _ _ => true
  | _ => false

/-- The calls of a pass that start or stop a tone channel, in order. -/
def toneCalls (as : List Action) : List Action := as.filter Action.isToneCall

/-- The state with the network fields (`wifiConnected`, `lastFirebaseUpload`,
`lastSystemState`, `lastHistoryLog`) blanked: two states agree on everything else
exactly when their local views are equal. -/
def State.localView (s : State) : State :=
  { s with wifiConnected := false, lastFirebaseUpload := 0, lastSystemState := 0,
           lastHistoryLog := 0 }

/-- The text shown by the 2-line display: the row the cursor is on and the two
lines.  The program positions the cursor only at column 0 of a cleared display. -/
structure LcdText where
  row : Nat
  line1 : String
  line2 : String
  deriving DecidableEq

/-- Effect of one platform call on the displayed text: `clear` empties both lines,
`setCursor` selects the row, `print` appends to the selected row (an `int` is
printed in decimal); other calls do not touch the display. -/
def lcdStep (d : LcdText) (a : Action) : LcdText :=
  match a with
  | Action.lcdClear => { row := 0, line1 := "", line2 := "" }
  | Action.lcdSetCursor _ r => { d with row := r }
  | Action.lcdPrint text =>
    if d.row = 0 then { d with line1 := d.line1 ++ text }
    else { d with line2 := d.line2 ++ text }
  | Action.lcdPrintInt value =>
    if d.row = 0 then { d with line1 := d.line1 ++ toString value }
    else { d with line2 := d.line2 ++ toString value }
  | _ => d

/-- The text on the display after a list of platform calls, starting blank. -/
def lcdRender (as : List Action) : LcdText :=
  as.foldl lcdStep { row := 0, line1 := "", line2 := "" }

/-! ## Concrete inputs used in examples -/

/-- A pass at tick `t` with a dry soil probe, no rain, the given echo duration, the
datastore ready and the clock not yet synchronised. -/
def envAt (t : Nat) (echoDuration : Int) : Env :=
  { currentMillis := t, rainSample := 3000, soilSample := 3175,
    echoDuration := echoDuration, firebaseReady := true, millisAtTest := t,
    millisAtLog := t, localTime := none }

/-- Ten passes one second apart, each with an echo of 2048 us (about 35 cm). -/
def tenPasses : List Env :=
  [envAt 1000 2048, envAt 2000 2048, envAt 3000 2048, envAt 4000 2048, envAt 5000 2048,
   envAt 6000 2048, envAt 7000 2048, envAt 8000 2048, envAt 9000 2048, envAt 10000 2048]

/-! ## Hazard classifier -/

/-- C1: the derived state is DANGER exactly when `distance < 45`, or
`distance < 55` and (`rain_raw < 1500` or `soil_pct > 80`). -/
theorem classify_danger_iff (distance : ℚ) (rainRaw soilPercent : Int) :
    classify distance rainRaw soilPercent = 2 ↔
      (distance < 45 ∨ (distance < 55 ∧ (rainRaw < 1500 ∨ soilPercent > 80))) := by
  unfold classify
  simp only [WATER_DANGER_CM, WATER_WARN_CM, RAIN_HEAVY_THRESH, RAIN_LIGHT_THRESH]
  push_cast
  split_ifs <;> simp_all

/-- C2: the derived state is one of 0, 1, 2; it is WARNING exactly when the DANGER
condition fails and (`distance < 55` or `rain_raw < 2500` or `soil_pct > 50`), SAFE
exactly when `distance >= 55`, `rain_raw >= 2500` and `soil_pct <= 50`; and the five
end-to-end readings of the specification classify as listed there. -/
theorem classify_cases :
    (∀ (distance : ℚ) (rainRaw soilPercent : Int),
      (classify distance rainRaw soilPercent = 0 ∨
        classify distance rainRaw soilPercent = 1 ∨
        classify distance rainRaw soilPercent = 2) ∧
      (classify distance rainRaw soilPercent = 1 ↔
        ¬ (distance < 45 ∨ (distance < 55 ∧ (rainRaw < 1500 ∨ soilPercent > 80))) ∧
          (distance < 55 ∨ rainRaw < 2500 ∨ soilPercent > 50)) ∧
      (classify distance rainRaw soilPercent = 0 ↔
        55 ≤ distance ∧ 2500 ≤ rainRaw ∧ soilPercent ≤ 50)) ∧
    (∀ rainRaw soilPercent : Int, classify 40 rainRaw soilPercent = 2) ∧
    classify 50 1000 10 = 2 ∧
    classify 50 3000 10 = 1 ∧
    classify 60 3000 10 = 0 ∧
    classify 60 3000 60 = 1 := by
  refine ⟨?_, ?_, by decide, by decide, by decide, by decide⟩
  · intro distance rainRaw soilPercent
    unfold classify
    simp only [WATER_DANGER_CM, WATER_WARN_CM, RAIN_HEAVY_THRESH, RAIN_LIGHT_THRESH]
    push_cast
    by_cases a : distance < 45 <;> by_cases b : distance < 55 <;>
      by_cases c : rainRaw < 1500 <;> by_cases d : soilPercent > 80 <;>
      by_cases e : rainRaw < 2500 <;> by_cases f : soilPercent > 50 <;>
      simp [a, b, c, d, e, f] <;>
      first | omega | linarith | exact ⟨by linarith, by omega, by omega⟩
  · intro rainRaw soilPercent
    unfold classify
    simp only [WATER_DANGER_CM]
    norm_num

/-- C3: on an echo timeout (pulse duration 0) `getDistance` returns the sentinel
999, and the classifier applied to 999, as to any distance of at least 55, returns
SAFE or WARNING and never DANGER, whatever the rain and soil readings. -/
theorem timeout_never_danger (distance : ℚ) (rainRaw soilPercent : Int)
    (h : 55 ≤ distance) :
    getDistance 0 = 999 ∧
    (classify (getDistance 0) rainRaw soilPercent = 0 ∨
      classify (getDistance 0) rainRaw soilPercent = 1) ∧
    classify (getDistance 0) rainRaw soilPercent ≠ 2 ∧
    (classify distance rainRaw soilPercent = 0 ∨
      classify distance rainRaw soilPercent = 1) ∧
    classify distance rainRaw soilPercent ≠ 2 := by
  have key : ∀ d : ℚ, 55 ≤ d →
      (classify d rainRaw soilPercent = 0 ∨ classify d rainRaw soilPercent = 1) ∧
        classify d rainRaw soilPercent ≠ 2 := by
    intro d hd
    have h45 : ¬ d < 45 := by linarith
    have h55 : ¬ d < 55 := by linarith
    unfold classify
    simp only [WATER_DANGER_CM, WATER_WARN_CM]
    push_cast
    simp only [h45, h55, if_false, false_and, false_or]
    split_ifs <;> simp
  have h0 : getDistance 0 = 999 := by simp [getDistance]
  rw [h0]
  exact ⟨rfl, (key 999 (by norm_num)).1, (key 999 (by norm_num)).2,
    (key distance h).1, (key distance h).2⟩

/-- Witness for `timeout_never_danger`: heavy rain and saturated soil at 60 cm. -/
theorem timeout_never_danger_witness :
    (55 : ℚ) ≤ 60 ∧ classify (getDistance 0) 0 100 ≠ 2 ∧ classify 60 0 100 ≠ 2 :=
  ⟨by norm_num, (timeout_never_danger 60 0 100 (by norm_num)).2.2.1,
    (timeout_never_danger 60 0 100 (by norm_num)).2.2.2.2⟩

/-! ## Single-precision rounding -/

/-- A rational within one half of an integer rounds to that integer. -/
theorem roundHalfEven_eq (x : ℚ) (m : Int) (h : |x - m| < 1 / 2) : roundHalfEven x = m := by
  rw [abs_lt] at h
  unfold roundHalfEven
  rcases le_or_lt (m : ℚ) x with hx | hx
  · have hf : ⌊x⌋ = m := Int.floor_eq_iff.mpr ⟨hx, by linarith⟩
    simp only [hf]
    rw [if_pos (by linarith)]
  · have hf : ⌊x⌋ = m - 1 :=
      Int.floor_eq_iff.mpr ⟨by push_cast; linarith, by push_cast; linarith⟩
    simp only [hf]
    rw [if_neg (by push_cast; linarith), if_pos (by push_cast; linarith)]
    ring

/-- Evaluation of `f32` from the binade `e` of the argument and the significand `m`
nearest to it. -/
theorem f32_eval (q : ℚ) (e m : Int) (h1 : (2 : ℚ) ^ e ≤ |q|)
    (h2 : |q| < (2 : ℚ) ^ (e + 1)) (hm : |q / 2 ^ (e - 23) - m| < 1 / 2) :
    f32 q = m * 2 ^ (e - 23) := by
  have hpos : 0 < |q| := lt_of_lt_of_le (by positivity) h1
  have hq : q ≠ 0 := abs_pos.mp hpos
  have hlog : Int.log 2 |q| = e := by
    have a : e ≤ Int.log 2 |q| :=
      (Int.zpow_le_iff_le_log (by norm_num) hpos).mp (by exact_mod_cast h1)
    have b : Int.log 2 |q| < e + 1 :=
      (Int.lt_zpow_iff_log_lt (by norm_num) hpos).mp (by exact_mod_cast h2)
    omega
  unfold f32
  rw [if_neg hq]
  simp only [hlog]
  rw [roundHalfEven_eq _ m hm]

/-- The single-precision value of the literal `0.0343`. -/
theorem SOUND_SPEED_eq : SOUND_SPEED = 1150917 / 33554432 := by
  unfold SOUND_SPEED
  rw [f32_eval (343 / 10000) (-5) 9207336 (by norm_num [abs_of_pos])
    (by norm_num [abs_of_pos]) (by norm_num [abs_lt])]
  norm_num

/-- An echo of 2048 us is reported as 1150917/32768 cm, about 35.12 cm. -/
theorem getDistance_2048 : getDistance 2048 = 1150917 / 32768 := by
  unfold getDistance
  rw [if_neg (by decide), SOUND_SPEED_eq]
  have a : f32 ((2048 : Int) : ℚ) = 2048 := by
    rw [f32_eval _ 11 8388608 (by norm_num [abs_of_pos]) (by norm_num [abs_of_pos])
      (by norm_num [abs_lt])]
    norm_num
  rw [a]
  have b : f32 (2048 * (1150917 / 33554432)) = 1150917 / 16384 := by
    rw [f32_eval _ 6 9207336 (by norm_num [abs_of_pos]) (by norm_num [abs_of_pos])
      (by norm_num [abs_lt])]
    norm_num
  rw [b]
  rw [f32_eval _ 5 9207336 (by norm_num [abs_of_pos]) (by norm_num [abs_of_pos])
    (by norm_num [abs_lt])]
  norm_num

/-! ## Soil mapping -/

/-- A value inside the range of a 32-bit `long` is left unchanged by `wrap32`. -/
theorem wrap32_eq_self (x : Int) (h1 : -2147483648 ≤ x) (h2 : x < 2147483648) :
    wrap32 x = x := by
  unfold wrap32
  omega

/-- On readings for which the 32-bit product does not overflow, `map` towards the
soil scale is the truncated quotient by `-1175`. -/
theorem map_soil_eq (raw : Int) (h0 : -21471661 ≤ raw) (h1 : raw ≤ 21478011) :
    map raw SOIL_DRY SOIL_WET 0 100 = -(Int.tdiv ((raw - 3175) * 100) 1175) := by
  have hq : Int.tdiv ((raw - 3175) * 100) 1175 ≤ 2147483647 ∧
      -2147483647 ≤ Int.tdiv ((raw - 3175) * 100) 1175 := by
    rcases le_total 0 (raw - 3175) with hs | hs
    · rw [Int.tdiv_eq_ediv (by omega) (by norm_num)]
      omega
    · have e : (raw - 3175) * 100 = -((3175 - raw) * 100) := by ring
      rw [e, Int.neg_tdiv, Int.tdiv_eq_ediv (by omega) (by norm_num)]
      omega
  unfold map
  simp only [SOIL_DRY, SOIL_WET]
  rw [wrap32_eq_self (raw - 3175) (by omega) (by omega),
    wrap32_eq_self (100 - 0) (by norm_num) (by norm_num),
    wrap32_eq_self (2000 - 3175) (by norm_num) (by norm_num)]
  have e1 : (100 : Int) - 0 = 100 := by norm_num
  have e2 : (2000 : Int) - 3175 = -1175 := by norm_num
  rw [e1, e2, wrap32_eq_self ((raw - 3175) * 100) (by omega) (by omega), Int.tdiv_neg,
    add_zero, wrap32_eq_self _ (by omega) (by omega)]

/-- C4: for every raw soil reading in the range where the 32-bit arithmetic of
`map` is exact (it contains every ADC value), the soil percentage lies in [0,100];
it is 0 from 3175 upwards, 100 from 2000 downwards, and in between it is the
integer quotient `((3175 - raw) * 100) / 1175`. -/
theorem soilPercentOf_spec (raw : Int) (h0 : -21471661 ≤ raw) (h1 : raw ≤ 21478011) :
    0 ≤ soilPercentOf raw ∧ soilPercentOf raw ≤ 100 ∧
    (3175 ≤ raw → soilPercentOf raw = 0) ∧
    (raw ≤ 2000 → soilPercentOf raw = 100) ∧
    (2000 ≤ raw → raw ≤ 3175 → soilPercentOf raw = ((3175 - raw) * 100) / 1175) := by
  unfold soilPercentOf constrain
  rw [map_soil_eq raw h0 h1]
  rcases le_total 0 (raw - 3175) with hs | hs
  · rw [Int.tdiv_eq_ediv (by omega) (by norm_num)]
    refine ⟨?_, ?_, ?_, ?_, ?_⟩ <;> intros <;> split_ifs <;> omega
  · have e : (raw - 3175) * 100 = -((3175 - raw) * 100) := by ring
    rw [e, Int.neg_tdiv, Int.tdiv_eq_ediv (by omega) (by norm_num), neg_neg]
    refine ⟨?_, ?_, ?_, ?_, ?_⟩ <;> intros <;> split_ifs <;> omega

/-- Witness for `soilPercentOf_spec`: the reading 2587 maps to 50 percent. -/
theorem soilPercentOf_spec_witness :
    (-21471661 : Int) ≤ 2587 ∧ (2587 : Int) ≤ 21478011 ∧
    soilPercentOf 2587 = ((3175 - 2587) * 100) / 1175 :=
  ⟨by decide, by decide,
    (soilPercentOf_spec 2587 (by decide) (by decide)).2.2.2.2 (by decide) (by decide)⟩

/-! ## Alarm sequencer -/

/-- A call of `playPJLAlarm` that does not change the step changes nothing. -/
theorem playPJLAlarm_eq_of_step_eq (t : Nat) (s : State)
    (h : (playPJLAlarm t s).1.buzzerStep = s.buzzerStep) : (playPJLAlarm t s).1 = s := by
  unfold playPJLAlarm at h ⊢
  split_ifs at h ⊢ <;> first | rfl | (simp at h; omega)

/-- The step after a call of `playPJLAlarm`, in terms of the step, the timer and
the time before it. -/
theorem playPJLAlarm_step (t : Nat) (s : State) :
    (playPJLAlarm t s).1.buzzerStep =
      if usub t s.buzzerTimer > 100 then
        if s.buzzerStep = 0 then 1
        else if s.buzzerStep = 1 ∧ usub t s.buzzerTimer > 600 then 2
        else if s.buzzerStep = 2 then 3
        else if s.buzzerStep = 3 ∧ usub t s.buzzerTimer > 600 then 4
        else if s.buzzerStep = 4 then 0
        else s.buzzerStep
      else s.buzzerStep := by
  unfold playPJLAlarm
  split_ifs <;> simp_all

/-- C8, counterexample: the sequencer enters step 1 at tick 1000; the call at
tick 1600 sees an elapsed time of exactly 600 ms, yet the step stays 1 and the high
tone keeps sounding. -/
theorem playPJLAlarm_no_advance_at_600 :
    (playPJLAlarm 1000 (initialState true)).1.buzzerStep = 1 ∧
    (playPJLAlarm 1000 (initialState true)).1.buzzerTimer = 1000 ∧
    usub 1600 (playPJLAlarm 1000 (initialState true)).1.buzzerTimer ≥ 600 ∧
    (playPJLAlarm 1600 (playPJLAlarm 1000 (initialState true)).1).1.buzzerStep ≠ 2 ∧
    (playPJLAlarm 1600 (playPJLAlarm 1000 (initialState true)).1).1.toneHigh = some 2000 ∧
    (playPJLAlarm 1600 (playPJLAlarm 1000 (initialState true)).1).2 = [] := by
  decide

/-- C8, amended: in every evaluation of `playPJLAlarm` the step advances as soon as
the unsigned elapsed time `currentMillis - buzzerTimer` is strictly greater than
the threshold: from step 1 beyond 600 ms to step 2 with the high tone stopped, from
step 3 beyond 600 ms to step 4 with the low tone stopped, from step 2 beyond 100 ms
to step 3 with the low tone started, from step 4 beyond 100 ms to step 0. -/
theorem playPJLAlarm_advance (t : Nat) (s : State) :
    (s.buzzerStep = 1 → usub t s.buzzerTimer > 600 →
      (playPJLAlarm t s).1.buzzerStep = 2 ∧ (playPJLAlarm t s).1.toneHigh = none ∧
        (playPJLAlarm t s).2 = [Action.noTone BUZZER_HIGH]) ∧
    (s.buzzerStep = 3 → usub t s.buzzerTimer > 600 →
      (playPJLAlarm t s).1.buzzerStep = 4 ∧ (playPJLAlarm t s).1.toneLow = none ∧
        (playPJLAlarm t s).2 = [Action.noTone BUZZER_LOW]) ∧
    (s.buzzerStep = 2 → usub t s.buzzerTimer > 100 →
      (playPJLAlarm t s).1.buzzerStep = 3 ∧ (playPJLAlarm t s).1.toneLow = some 1500 ∧
        (playPJLAlarm t s).2 = [Action.tone BUZZER_LOW 1500]) ∧
    (s.buzzerStep = 4 → usub t s.buzzerTimer > 100 →
      (playPJLAlarm t s).1.buzzerStep = 0) := by
  refine ⟨?_, ?_, ?_, ?_⟩ <;> intro h1 h2 <;>
    have h3 : usub t s.buzzerTimer > 100 := by omega
  all_goals simp [playPJLAlarm, h1, h2, h3]

/-- Witness for `playPJLAlarm_advance`: step 1 entered at tick 1000 is left by the
call at tick 1601. -/
theorem playPJLAlarm_advance_witness :
    (playPJLAlarm 1000 (initialState true)).1.buzzerStep = 1 ∧
    usub 1601 (playPJLAlarm 1000 (initialState true)).1.buzzerTimer > 600 ∧
    (playPJLAlarm 1601 (playPJLAlarm 1000 (initialState true)).1).1.buzzerStep = 2 :=
  ⟨by decide, by decide,
    ((playPJLAlarm_advance 1601 (playPJLAlarm 1000 (initialState true)).1).1
      (by decide) (by decide)).1⟩

/-- The relation between step and tone channels kept by the alarm sequencer. -/
theorem alarm_invariant_step (s : State) (c : BuzzerCall)
    (h : (0 ≤ s.buzzerStep ∧ s.buzzerStep ≤ 4) ∧
      (s.toneHigh ≠ none ↔ s.buzzerStep = 1) ∧ (s.toneLow ≠ none ↔ s.buzzerStep = 3)) :
    (0 ≤ (applyCall s c).buzzerStep ∧ (applyCall s c).buzzerStep ≤ 4) ∧
      ((applyCall s c).toneHigh ≠ none ↔ (applyCall s c).buzzerStep = 1) ∧
      ((applyCall s c).toneLow ≠ none ↔ (applyCall s c).buzzerStep = 3) := by
  obtain ⟨⟨h0, h4⟩, hH, hL⟩ := h
  cases c with
  | silence => simp [applyCall, silenceBuzzers]
  | play t =>
    simp only [applyCall]
    unfold playPJLAlarm
    split_ifs with g a b c d e
    · simp_all
    · simp_all
    · simp_all
    · simp_all
    · simp_all
    · exact ⟨⟨h0, h4⟩, hH, hL⟩
    · exact ⟨⟨h0, h4⟩, hH, hL⟩

/-- The relation between step and tone channels holds after any sequence of calls
made from a state in which it holds. -/
theorem alarm_invariant_calls (cs : List BuzzerCall) (s : State)
    (h : (0 ≤ s.buzzerStep ∧ s.buzzerStep ≤ 4) ∧
      (s.toneHigh ≠ none ↔ s.buzzerStep = 1) ∧ (s.toneLow ≠ none ↔ s.buzzerStep = 3)) :
    (0 ≤ (applyCalls cs s).buzzerStep ∧ (applyCalls cs s).buzzerStep ≤ 4) ∧
      ((applyCalls cs s).toneHigh ≠ none ↔ (applyCalls cs s).buzzerStep = 1) ∧
      ((applyCalls cs s).toneLow ≠ none ↔ (applyCalls cs s).buzzerStep = 3) := by
  induction cs generalizing s with
  | nil => exact h
  | cons c rest ih => exact ih (applyCall s c) (alarm_invariant_step s c h)

/-- C9: from a silenced sequencer (step 0, both tones off), after every sequence of
`playPJLAlarm` and `silenceBuzzers` calls the step is in {0,..,4}, the high tone
sounds exactly in step 1 and the low tone exactly in step 3 (so never both), and a
further `playPJLAlarm` call leaves the step unchanged or moves it to
`(step + 1) mod 5`. -/
theorem alarm_sequencer_invariant (cs : List BuzzerCall) (s : State) (t : Nat)
    (hStep : s.buzzerStep = 0) (hHigh : s.toneHigh = none) (hLow : s.toneLow = none) :
    (0 ≤ (applyCalls cs s).buzzerStep ∧ (applyCalls cs s).buzzerStep ≤ 4) ∧
    ((applyCalls cs s).toneHigh ≠ none ↔ (applyCalls cs s).buzzerStep = 1) ∧
    ((applyCalls cs s).toneLow ≠ none ↔ (applyCalls cs s).buzzerStep = 3) ∧
    ¬ ((applyCalls cs s).toneHigh ≠ none ∧ (applyCalls cs s).toneLow ≠ none) ∧
    ((playPJLAlarm t (applyCalls cs s)).1.buzzerStep = (applyCalls cs s).buzzerStep ∨
      (playPJLAlarm t (applyCalls cs s)).1.buzzerStep =
        ((applyCalls cs s).buzzerStep + 1) % 5) := by
  have inv := alarm_invariant_calls cs s
    ⟨⟨by omega, by omega⟩, by simp [hHigh, hStep], by simp [hLow, hStep]⟩
  obtain ⟨⟨h0, h4⟩, hH, hL⟩ := inv
  refine ⟨⟨h0, h4⟩, hH, hL, ?_, ?_⟩
  · rintro ⟨a, b⟩
    have h1 := hH.mp a
    have h3 := hL.mp b
    omega
  · rw [playPJLAlarm_step]
    split_ifs <;> omega

/-- Witness for `alarm_sequencer_invariant`: an alarm cycle interrupted by a
silence call, started from the initial state. -/
theorem alarm_sequencer_invariant_witness :
    (initialState true).buzzerStep = 0 ∧
    (applyCalls [BuzzerCall.play 1000, BuzzerCall.play 1700, BuzzerCall.silence,
        BuzzerCall.play 2000] (initialState true)).buzzerStep = 1 ∧
    ((applyCalls [BuzzerCall.play 1000, BuzzerCall.play 1700, BuzzerCall.silence,
        BuzzerCall.play 2000] (initialState true)).toneHigh ≠ none ↔
      (applyCalls [BuzzerCall.play 1000, BuzzerCall.play 1700, BuzzerCall.silence,
        BuzzerCall.play 2000] (initialState true)).buzzerStep = 1) :=
  ⟨rfl, by decide,
    (alarm_sequencer_invariant [BuzzerCall.play 1000, BuzzerCall.play 1700,
      BuzzerCall.silence, BuzzerCall.play 2000] (initialState true) 2700 rfl rfl rfl).2.1⟩

/-- A run of `playPJLAlarm` calls none of which changes the step changes nothing. -/
theorem applyCalls_plays_eq (ts : List Nat) (s : State)
    (hStay : ∀ pre : List Nat, pre <+: ts →
      (applyCalls (pre.map BuzzerCall.play) s).buzzerStep = s.buzzerStep) :
    applyCalls (ts.map BuzzerCall.play) s = s := by
  induction ts using List.reverseRecOn with
  | nil => rfl
  | append_singleton init t ih =>
    have hinit : applyCalls (init.map BuzzerCall.play) s = s :=
      ih (fun pre hpre => hStay pre (hpre.trans (List.prefix_append init [t])))
    have hall := hStay (init ++ [t]) (List.prefix_refl _)
    simp only [applyCalls, List.map_append, List.map_cons, List.map_nil,
      List.foldl_append, List.foldl_cons, List.foldl_nil] at hall ⊢
    simp only [applyCalls] at hinit
    rw [hinit] at hall ⊢
    exact playPJLAlarm_eq_of_step_eq t s hall

/-- C10: if the `playPJLAlarm` call at tick `t1` enters a step, the calls at ticks
`ts` all leave the step unchanged and the call at tick `t2` leaves it, then the
unsigned 32-bit elapsed time `t2 - t1` is at least 600 ms when the step is 1 or 3
(a tone phase) and at least 100 ms when it is 2 or 4 (a silent gap). -/
theorem alarm_hold_times (s : State) (t1 : Nat) (ts : List Nat) (t2 : Nat)
    (hEnter : (playPJLAlarm t1 s).1.buzzerStep ≠ s.buzzerStep)
    (hStay : ∀ k, k ≤ ts.length →
      (applyCalls ((ts.take k).map BuzzerCall.play) (playPJLAlarm t1 s).1).buzzerStep =
        (playPJLAlarm t1 s).1.buzzerStep)
    (hLeave : (playPJLAlarm t2
        (applyCalls (ts.map BuzzerCall.play) (playPJLAlarm t1 s).1)).1.buzzerStep ≠
      (playPJLAlarm t1 s).1.buzzerStep) :
    (((playPJLAlarm t1 s).1.buzzerStep = 1 ∨ (playPJLAlarm t1 s).1.buzzerStep = 3) →
      600 ≤ usub t2 t1) ∧
    (((playPJLAlarm t1 s).1.buzzerStep = 2 ∨ (playPJLAlarm t1 s).1.buzzerStep = 4) →
      100 ≤ usub t2 t1) := by
  have hPre : ∀ pre : List Nat, pre <+: ts →
      (applyCalls (pre.map BuzzerCall.play) (playPJLAlarm t1 s).1).buzzerStep =
        (playPJLAlarm t1 s).1.buzzerStep := by
    intro pre hpre
    have hk := hStay pre.length hpre.length_le
    rwa [← List.prefix_iff_eq_take.mp hpre] at hk
  rw [applyCalls_plays_eq ts _ hPre] at hLeave
  have hTimer : (playPJLAlarm t1 s).1.buzzerStep ≠ 0 →
      (playPJLAlarm t1 s).1.buzzerTimer = t1 := by
    unfold playPJLAlarm at hEnter ⊢
    split_ifs at hEnter ⊢ <;> simp_all
  rw [playPJLAlarm_step] at hLeave
  constructor
  · intro h
    have ht := hTimer (by omega)
    rw [ht] at hLeave
    split_ifs at hLeave <;> omega
  · intro h
    have ht := hTimer (by omega)
    rw [ht] at hLeave
    split_ifs at hLeave <;> omega

/-- Witness for `alarm_hold_times`: the high tone started at tick 1000 is polled at
ticks 1100, 1300 and 1600 and stopped at tick 1601. -/
theorem alarm_hold_times_witness :
    (playPJLAlarm 1000 (initialState true)).1.buzzerStep = 1 ∧
    (playPJLAlarm 1601 (applyCalls ([1100, 1300, 1600].map BuzzerCall.play)
      (playPJLAlarm 1000 (initialState true)).1)).1.buzzerStep = 2 ∧
    600 ≤ usub 1601 1000 :=
  ⟨by decide, by decide,
    (alarm_hold_times (initialState true) 1000 [1100, 1300, 1600] 1601 (by decide)
      (by decide) (by decide)).1 (Or.inl (by decide))⟩

/-! ## Upload coordinator -/

/-- C7: for a call of `sendToFirebase` made while the datastore is ready, a history
record is appended exactly when `state == 2` or more than 300000 ms have elapsed
since `lastHistoryLog`; then `lastHistoryLog` becomes the current tick and the
record carries the call's water, soil and rain values and the label also written
as live status ("SAFE" for 0, "WARNING" for 1, "DANGER" for 2); otherwise
`lastHistoryLog` is unchanged. -/
theorem sendToFirebase_history (e : Env) (dist : ℚ) (rain soil state : Int) (s : State)
    (hReady : e.firebaseReady = true) :
    (historyCount (sendToFirebase e dist rain soil state s).2 = 1 ↔
      (state = 2 ∨ usub e.millisAtTest s.lastHistoryLog > 300000)) ∧
    ((state = 2 ∨ usub e.millisAtTest s.lastHistoryLog > 300000) →
      (sendToFirebase e dist rain soil state s).1.lastHistoryLog = e.millisAtLog ∧
      Action.pushJSON "/AQUA/History"
          { water := dist, soil := soil, rain := rain, status := statusStr state,
            timestamp := getFormattedTime e.localTime } ∈
        (sendToFirebase e dist rain soil state s).2 ∧
      (∀ path record, Action.pushJSON path record ∈
          (sendToFirebase e dist rain soil state s).2 →
        record.water = dist ∧ record.soil = soil ∧ record.rain = rain ∧
          Action.setString "/AQUA/Current/status" record.status ∈
            (sendToFirebase e dist rain soil state s).2)) ∧
    (¬ (state = 2 ∨ usub e.millisAtTest s.lastHistoryLog > 300000) →
      historyCount (sendToFirebase e dist rain soil state s).2 = 0 ∧
      (sendToFirebase e dist rain soil state s).1.lastHistoryLog = s.lastHistoryLog) ∧
    statusStr 0 = "SAFE" ∧ statusStr 1 = "WARNING" ∧ statusStr 2 = "DANGER" := by
  by_cases hc : state = 2 ∨ usub e.millisAtTest s.lastHistoryLog > 300000
  · have hb : (decide (usub e.millisAtTest s.lastHistoryLog > 300000) ||
        decide (state = 2)) = true := by
      rcases hc with h | h <;> simp [h]
    refine ⟨?_, ?_, fun h => absurd hc h, by decide, by decide, by decide⟩
    · simp [sendToFirebase, hReady, hb, historyCount, Action.isHistoryPush, hc]
    · intro _
      simp [sendToFirebase, hReady, hb]
  · have hb : (decide (usub e.millisAtTest s.lastHistoryLog > 300000) ||
        decide (state = 2)) = false := by
      simp only [not_or] at hc
      simp [hc.1, hc.2]
    refine ⟨?_, fun h => absurd h hc, ?_, by decide, by decide, by decide⟩
    · simp [sendToFirebase, hReady, hb, historyCount, Action.isHistoryPush, hc]
    · intro _
      simp [sendToFirebase, hReady, hb, historyCount, Action.isHistoryPush]

/-- Witness for `sendToFirebase_history`: a WARNING upload 300001 ms after the last
history log. -/
theorem sendToFirebase_history_witness :
    historyCount (sendToFirebase
      { currentMillis := 300001, rainSample := 0, soilSample := 0, echoDuration := 0,
        firebaseReady := true, millisAtTest := 300001, millisAtLog := 300002,
        localTime := none } 50 3000 10 1 (initialState true)).2 = 1 :=
  (sendToFirebase_history
    { currentMillis := 300001, rainSample := 0, soilSample := 0, echoDuration := 0,
      firebaseReady := true, millisAtTest := 300001, millisAtLog := 300002,
      localTime := none } 50 3000 10 1 (initialState true) rfl).1.mpr
    (Or.inr (by decide))

/-- The datastore readiness query is the first platform call of every invocation
of `sendToFirebase`. -/
theorem firebaseReady_mem_sendToFirebase (e : Env) (dist : ℚ) (rain soil state : Int)
    (s : State) : Action.firebaseReady ∈ (sendToFirebase e dist rain soil state s).2 := by
  by_cases h1 : e.firebaseReady = true <;>
    by_cases h2 : (decide (usub e.millisAtTest s.lastHistoryLog > 300000) ||
      decide (state = 2)) = true <;>
    simp [sendToFirebase, h1, h2]

/-- Section 1 of `loop` never queries the datastore. -/
theorem firebaseReady_not_mem_sensorReading (e : Env) (s : State) :
    Action.firebaseReady ∉ (sensorReading e s).2 := by
  unfold sensorReading
  split_ifs <;> simp [getDistanceActions]

/-- Section 3 of `loop` never queries the datastore. -/
theorem firebaseReady_not_mem_outputControl (e : Env) (s : State) :
    Action.firebaseReady ∉ (outputControl e s).2 := by
  have hp : ∀ t (s1 : State), Action.firebaseReady ∉ (playPJLAlarm t s1).2 := by
    intro t s1
    unfold playPJLAlarm
    split_ifs <;> simp
  unfold outputControl
  split_ifs
  · simp [silenceBuzzers]
  · simp [silenceBuzzers]
  · simp [hp]
  · simp

/-- Section 4 of `loop` never queries the datastore. -/
theorem firebaseReady_not_mem_lcdDashboard (e : Env) (s : State) :
    Action.firebaseReady ∉ (lcdDashboard e s).2 := by
  by_cases h : usub e.currentMillis s.lastScreenUpdate > 3000 <;>
    cases hl : s.lcdScreenOne <;> simp [lcdDashboard, h, hl]

/-- Section 2 of `loop` invokes `sendToFirebase` exactly when the network is up and
the upload period has elapsed or the state differs from `lastSystemState`. -/
theorem firebaseReady_mem_smartUpload (e : Env) (s : State) :
    Action.firebaseReady ∈ (smartUpload e s).2 ↔
      (s.wifiConnected = true ∧
        (usub e.currentMillis s.lastFirebaseUpload > 5000 ∨
          s.systemState ≠ s.lastSystemState)) := by
  unfold smartUpload
  by_cases hw : s.wifiConnected = true
  · by_cases hc : usub e.currentMillis s.lastFirebaseUpload > 5000 ∨
        s.systemState ≠ s.lastSystemState
    · have hb : (decide (usub e.currentMillis s.lastFirebaseUpload > 5000) ||
          decide (s.systemState ≠ s.lastSystemState)) = true := by
        rcases hc with h | h <;> simp [h]
      simp only [hw, hb, if_true, true_and]
      exact ⟨fun _ => hc, fun _ => List.mem_append_right _
        (firebaseReady_mem_sendToFirebase _ _ _ _ _ _)⟩
    · have hb : (decide (usub e.currentMillis s.lastFirebaseUpload > 5000) ||
          decide (s.systemState ≠ s.lastSystemState)) = false := by
        simp only [not_or] at hc
        simp [hc.1, hc.2]
      simp [hw, hb, hc]
  · simp [hw]

/-- The fields of the upload coordinator and the network flag are untouched by
`sendToFirebase`, apart from `lastHistoryLog`. -/
theorem sendToFirebase_frame (e : Env) (dist : ℚ) (rain soil state : Int) (s : State) :
    (sendToFirebase e dist rain soil state s).1.systemState = s.systemState ∧
    (sendToFirebase e dist rain soil state s).1.lastSystemState = s.lastSystemState ∧
    (sendToFirebase e dist rain soil state s).1.lastFirebaseUpload = s.lastFirebaseUpload ∧
    (sendToFirebase e dist rain soil state s).1.wifiConnected = s.wifiConnected := by
  by_cases h1 : e.firebaseReady = true <;>
    by_cases h2 : (decide (usub e.millisAtTest s.lastHistoryLog > 300000) ||
      decide (state = 2)) = true <;>
    simp [sendToFirebase, h1, h2]

/-- Section 1 of `loop` leaves the upload coordinator's fields unchanged. -/
theorem sensorReading_frame (e : Env) (s : State) :
    (sensorReading e s).1.lastSystemState = s.lastSystemState ∧
    (sensorReading e s).1.lastFirebaseUpload = s.lastFirebaseUpload ∧
    (sensorReading e s).1.lastHistoryLog = s.lastHistoryLog ∧
    (sensorReading e s).1.wifiConnected = s.wifiConnected := by
  unfold sensorReading
  split_ifs <;> simp

/-- Section 3 of `loop` leaves the state and the upload coordinator's fields
unchanged. -/
theorem outputControl_frame (e : Env) (s : State) :
    (outputControl e s).1.systemState = s.systemState ∧
    (outputControl e s).1.lastSystemState = s.lastSystemState ∧
    (outputControl e s).1.lastFirebaseUpload = s.lastFirebaseUpload ∧
    (outputControl e s).1.lastHistoryLog = s.lastHistoryLog ∧
    (outputControl e s).1.wifiConnected = s.wifiConnected := by
  have hp : ∀ t (s1 : State),
      (playPJLAlarm t s1).1.systemState = s1.systemState ∧
      (playPJLAlarm t s1).1.lastSystemState = s1.lastSystemState ∧
      (playPJLAlarm t s1).1.lastFirebaseUpload = s1.lastFirebaseUpload ∧
      (playPJLAlarm t s1).1.lastHistoryLog = s1.lastHistoryLog ∧
      (playPJLAlarm t s1).1.wifiConnected = s1.wifiConnected := by
    intro t s1
    unfold playPJLAlarm
    split_ifs <;> simp
  unfold outputControl
  split_ifs
  · simp [silenceBuzzers]
  · simp [silenceBuzzers]
  · simp [hp]
  · simp

/-- Section 4 of `loop` leaves the state and the upload coordinator's fields
unchanged. -/
theorem lcdDashboard_frame (e : Env) (s : State) :
    (lcdDashboard e s).1.systemState = s.systemState ∧
    (lcdDashboard e s).1.lastSystemState = s.lastSystemState ∧
    (lcdDashboard e s).1.lastFirebaseUpload = s.lastFirebaseUpload ∧
    (lcdDashboard e s).1.lastHistoryLog = s.lastHistoryLog ∧
    (lcdDashboard e s).1.wifiConnected = s.wifiConnected := by
  by_cases h : usub e.currentMillis s.lastScreenUpdate > 3000 <;>
    cases hl : s.lcdScreenOne <;> simp [lcdDashboard, h, hl]

/-- Section 2 of `loop` leaves the state and the network flag unchanged, and with
the network up it leaves `lastSystemState` equal to the current state. -/
theorem smartUpload_frame (e : Env) (s : State) :
    (smartUpload e s).1.systemState = s.systemState ∧
    (smartUpload e s).1.wifiConnected = s.wifiConnected ∧
    (s.wifiConnected = true → (smartUpload e s).1.lastSystemState = s.systemState) := by
  have f1 := fun d r so st s1 => (sendToFirebase_frame e d r so st s1).1
  have f2 := fun d r so st s1 => (sendToFirebase_frame e d r so st s1).2.1
  have f4 := fun d r so st s1 => (sendToFirebase_frame e d r so st s1).2.2.2
  by_cases hw : s.wifiConnected = true
  · by_cases hc : (decide (usub e.currentMillis s.lastFirebaseUpload > 5000) ||
        decide (s.systemState ≠ s.lastSystemState)) = true
    · simp only [smartUpload, hw, hc, if_true, f1, f2, f4, true_and, implies_true]
    · simp only [smartUpload, hw, hc, if_true, true_and]
      simp only [Bool.or_eq_true, decide_eq_true_eq, not_or, not_not] at hc
      simp [hc.2, hw]
  · simp [smartUpload, hw]

/-- The state with which a pass of `loop` ends is the one section 1 derived. -/
theorem loop_systemState (e : Env) (s : State) :
    (loop e s).1.systemState = (sensorReading e s).1.systemState := by
  unfold loop
  simp only []
  rw [(lcdDashboard_frame _ _).1, (outputControl_frame _ _).1, (smartUpload_frame _ _).1]

/-- A pass of `loop` queries the datastore exactly when section 2 does. -/
theorem firebaseReady_mem_loop (e : Env) (s : State) :
    Action.firebaseReady ∈ (loop e s).2 ↔
      Action.firebaseReady ∈ (smartUpload e (sensorReading e s).1).2 := by
  unfold loop
  simp only [List.mem_append, firebaseReady_not_mem_sensorReading,
    firebaseReady_not_mem_outputControl, firebaseReady_not_mem_lcdDashboard,
    false_or, or_false]

/-- C5: with `wifiConnected`, a pass of `loop` whose state differs from
`lastSystemState` (the state of the previous coordinator evaluation) invokes
`sendToFirebase` in that pass whatever the time since the last upload; a pass with
no state change invokes it only if at least 5000 ms (in fact more) have elapsed
since `lastFirebaseUpload`; and after the pass `lastSystemState` is the state of
that pass. -/
theorem live_upload_trigger (e : Env) (s : State) (hw : s.wifiConnected = true) :
    ((loop e s).1.systemState ≠ s.lastSystemState →
      Action.firebaseReady ∈ (loop e s).2) ∧
    ((loop e s).1.systemState = s.lastSystemState →
      Action.firebaseReady ∈ (loop e s).2 →
      5000 ≤ usub e.currentMillis s.lastFirebaseUpload ∧
        5000 < usub e.currentMillis s.lastFirebaseUpload) ∧
    (loop e s).1.lastSystemState = (loop e s).1.systemState := by
  have hf := sensorReading_frame e s
  have hw1 : (sensorReading e s).1.wifiConnected = true := by rw [hf.2.2.2]; exact hw
  rw [loop_systemState, firebaseReady_mem_loop, firebaseReady_mem_smartUpload,
    hf.1, hf.2.1]
  refine ⟨fun h => ⟨hw1, Or.inr h⟩, ?_, ?_⟩
  · rintro h ⟨_, h2 | h2⟩
    · exact ⟨by omega, h2⟩
    · exact absurd h h2
  · unfold loop
    simp only []
    rw [(lcdDashboard_frame _ _).2.1, (outputControl_frame _ _).2.1]
    exact (smartUpload_frame e _).2.2 hw1

/-- Witness for `live_upload_trigger`: the first pass after start-up (state SAFE,
`lastSystemState` still -1) uploads at once. -/
theorem live_upload_trigger_witness :
    (initialState true).wifiConnected = true ∧
    Action.firebaseReady ∈ (loop (envAt 150 0) (initialState true)).2 :=
  ⟨rfl, (live_upload_trigger (envAt 150 0) (initialState true) rfl).1 (by decide)⟩

/-! ## History logging -/

/-- Counting history records distributes over concatenation. -/
theorem historyCount_append (as bs : List Action) :
    historyCount (as ++ bs) = historyCount as + historyCount bs := by
  simp [historyCount]

/-- Number of history records appended by one invocation of `sendToFirebase`. -/
theorem historyCount_sendToFirebase (e : Env) (dist : ℚ) (rain soil state : Int)
    (s : State) :
    historyCount (sendToFirebase e dist rain soil state s).2 =
      if e.firebaseReady = true ∧
          (usub e.millisAtTest s.lastHistoryLog > 300000 ∨ state = 2) then 1 else 0 := by
  by_cases h1 : e.firebaseReady = true <;>
    by_cases h2 : usub e.millisAtTest s.lastHistoryLog > 300000 <;>
    by_cases h3 : state = 2 <;>
    simp [sendToFirebase, historyCount, Action.isHistoryPush, h1, h2, h3]

/-- Sections 1, 3 and 4 of `loop` append no history record. -/
theorem historyCount_other_sections (e : Env) (s : State) :
    historyCount (sensorReading e s).2 = 0 ∧ historyCount (outputControl e s).2 = 0 ∧
    historyCount (lcdDashboard e s).2 = 0 := by
  have hp : ∀ t (s1 : State), historyCount (playPJLAlarm t s1).2 = 0 := by
    intro t s1
    unfold playPJLAlarm
    split_ifs <;> simp [historyCount, Action.isHistoryPush]
  refine ⟨?_, ?_, ?_⟩
  · unfold sensorReading
    split_ifs <;> simp [historyCount, Action.isHistoryPush, getDistanceActions]
  · unfold outputControl
    split_ifs
    · simp [silenceBuzzers, historyCount, Action.isHistoryPush]
    · simp [silenceBuzzers, historyCount, Action.isHistoryPush]
    · rw [historyCount_append, hp]
      simp [historyCount, Action.isHistoryPush]
    · simp [historyCount]
  · by_cases h : usub e.currentMillis s.lastScreenUpdate > 3000 <;>
      cases hl : s.lcdScreenOne <;>
      simp [lcdDashboard, h, hl, historyCount, Action.isHistoryPush]

/-- Number of history records appended by section 2 of `loop`. -/
theorem historyCount_smartUpload (e : Env) (s : State) :
    historyCount (smartUpload e s).2 =
      if s.wifiConnected = true ∧
          (usub e.currentMillis s.lastFirebaseUpload > 5000 ∨
            s.systemState ≠ s.lastSystemState) ∧
          e.firebaseReady = true ∧
          (usub e.millisAtTest s.lastHistoryLog > 300000 ∨ s.systemState = 2)
      then 1 else 0 := by
  by_cases hw : s.wifiConnected = true
  · by_cases hc : (decide (usub e.currentMillis s.lastFirebaseUpload > 5000) ||
        decide (s.systemState ≠ s.lastSystemState)) = true
    · have hc2 : usub e.currentMillis s.lastFirebaseUpload > 5000 ∨
          s.systemState ≠ s.lastSystemState := by
        simpa [Bool.or_eq_true, decide_eq_true_eq] using hc
      simp only [smartUpload, hw, hc, if_true, historyCount_append,
        historyCount_sendToFirebase, hc2, true_and]
      split_ifs <;> simp [historyCount, Action.isHistoryPush]
    · have hc2 : ¬ (usub e.currentMillis s.lastFirebaseUpload > 5000 ∨
          s.systemState ≠ s.lastSystemState) := by
        simpa [Bool.or_eq_true, decide_eq_true_eq] using hc
      simp [smartUpload, hw, hc, hc2, historyCount]
  · simp [smartUpload, hw, historyCount]

/-- Number of history records appended by one pass of `loop`. -/
theorem historyCount_loop (e : Env) (s : State) :
    historyCount (loop e s).2 =
      if s.wifiConnected = true ∧
          (usub e.currentMillis s.lastFirebaseUpload > 5000 ∨
            (loop e s).1.systemState ≠ s.lastSystemState) ∧
          e.firebaseReady = true ∧
          (usub e.millisAtTest s.lastHistoryLog > 300000 ∨ (loop e s).1.systemState = 2)
      then 1 else 0 := by
  have hf := sensorReading_frame e s
  have ho := historyCount_other_sections
  rw [loop_systemState]
  unfold loop
  simp only [historyCount_append, (ho _ _).1, (ho _ _).2.1, (ho _ _).2.2,
    historyCount_smartUpload, hf.1, hf.2.1, hf.2.2.1, hf.2.2.2, zero_add, add_zero]

/-- The timers of sections 1 and 2 after one pass of `loop` with the network up. -/
theorem loop_timers (e : Env) (s : State) (hw : s.wifiConnected = true) :
    (loop e s).1.wifiConnected = true ∧
    (loop e s).1.lastSensorRead =
      (if usub e.currentMillis s.lastSensorRead > 100 then e.currentMillis
       else s.lastSensorRead) ∧
    (loop e s).1.lastFirebaseUpload =
      (if usub e.currentMillis s.lastFirebaseUpload > 5000 ∨
          (loop e s).1.systemState ≠ s.lastSystemState then e.currentMillis
       else s.lastFirebaseUpload) ∧
    (loop e s).1.lastSystemState = (loop e s).1.systemState := by
  have hp : ∀ t (s1 : State),
      (playPJLAlarm t s1).1.lastSensorRead = s1.lastSensorRead := by
    intro t s1
    unfold playPJLAlarm
    split_ifs <;> simp
  have hout : ∀ s1 : State, (outputControl e s1).1.lastSensorRead = s1.lastSensorRead := by
    intro s1
    unfold outputControl
    split_ifs
    · simp [silenceBuzzers]
    · simp [silenceBuzzers]
    · simp [hp]
    · simp
  have hlcd : ∀ s1 : State, (lcdDashboard e s1).1.lastSensorRead = s1.lastSensorRead := by
    intro s1
    by_cases h : usub e.currentMillis s1.lastScreenUpdate > 3000 <;>
      cases hl : s1.lcdScreenOne <;> simp [lcdDashboard, h, hl]
  have hsend : ∀ d r so st (s1 : State),
      (sendToFirebase e d r so st s1).1.lastSensorRead = s1.lastSensorRead := by
    intro d r so st s1
    by_cases h1 : e.firebaseReady = true <;>
      by_cases h2 : (decide (usub e.millisAtTest s1.lastHistoryLog > 300000) ||
        decide (st = 2)) = true <;>
      simp [sendToFirebase, h1, h2]
  have hf3 := fun d r so st s1 => (sendToFirebase_frame e d r so st s1).2.2.1
  have hup : ∀ s1 : State, (smartUpload e s1).1.lastSensorRead = s1.lastSensorRead ∧
      (smartUpload e s1).1.lastFirebaseUpload =
        (if s1.wifiConnected = true ∧ (usub e.currentMillis s1.lastFirebaseUpload > 5000 ∨
            s1.systemState ≠ s1.lastSystemState) then e.currentMillis
         else s1.lastFirebaseUpload) := by
    intro s1
    by_cases h1 : s1.wifiConnected = true
    · by_cases hc : (decide (usub e.currentMillis s1.lastFirebaseUpload > 5000) ||
          decide (s1.systemState ≠ s1.lastSystemState)) = true
      · have hc2 : usub e.currentMillis s1.lastFirebaseUpload > 5000 ∨
            s1.systemState ≠ s1.lastSystemState := by
          simpa [Bool.or_eq_true, decide_eq_true_eq] using hc
        simp only [smartUpload, h1, hc, if_true, hsend, hf3, hc2, and_self]
      · have hc2 : ¬ (usub e.currentMillis s1.lastFirebaseUpload > 5000 ∨
            s1.systemState ≠ s1.lastSystemState) := by
          simpa [Bool.or_eq_true, decide_eq_true_eq] using hc
        simp [smartUpload, h1, hc, hc2]
    · simp [smartUpload, h1]
  have hf := sensorReading_frame e s
  have hw1 : (sensorReading e s).1.wifiConnected = true := by rw [hf.2.2.2]; exact hw
  have hsr : (sensorReading e s).1.lastSensorRead =
      (if usub e.currentMillis s.lastSensorRead > 100 then e.currentMillis
       else s.lastSensorRead) := by
    unfold sensorReading
    split_ifs <;> simp
  rw [loop_systemState]
  unfold loop
  simp only []
  refine ⟨?_, ?_, ?_, ?_⟩
  · rw [(lcdDashboard_frame _ _).2.2.2.2, (outputControl_frame _ _).2.2.2.2,
      (smartUpload_frame _ _).2.1]
    exact hw1
  · rw [hlcd, hout, (hup _).1, hsr]
  · rw [(lcdDashboard_frame _ _).2.2.1, (outputControl_frame _ _).2.2.1, (hup _).2,
      hf.1, hf.2.1]
    simp only [hw1, true_and]
  · rw [(lcdDashboard_frame _ _).2.1, (outputControl_frame _ _).2.1]
    exact (smartUpload_frame e _).2.2 hw1

/-- A sampling pass with an echo of 2048 us derives DANGER. -/
theorem loop_envAt_2048_danger (t : Nat) (s : State)
    (hg : usub t s.lastSensorRead > 100) :
    (loop (envAt t 2048) s).1.systemState = 2 := by
  rw [loop_systemState]
  have hg2 : usub (envAt t 2048).currentMillis s.lastSensorRead > 100 := hg
  unfold sensorReading
  rw [if_pos hg2]
  show classify (getDistance 2048) _ _ = 2
  rw [getDistance_2048]
  unfold classify
  rw [if_pos (by norm_num [WATER_DANGER_CM])]

/-- Summary of one sampling pass with an echo of 2048 us and the network up: the
state is DANGER, and the live upload and the history record happen together,
exactly when the upload period has elapsed or the previous state was not DANGER. -/
theorem danger_pass_summary (t lsr lfu : Nat) (s : State) (hw : s.wifiConnected = true)
    (h1 : s.lastSensorRead = lsr) (h2 : s.lastFirebaseUpload = lfu)
    (hg : usub t lsr > 100) :
    (loop (envAt t 2048) s).1.wifiConnected = true ∧
    (loop (envAt t 2048) s).1.systemState = 2 ∧
    (loop (envAt t 2048) s).1.lastSystemState = 2 ∧
    (loop (envAt t 2048) s).1.lastSensorRead = t ∧
    (loop (envAt t 2048) s).1.lastFirebaseUpload =
      (if usub t lfu > 5000 ∨ s.lastSystemState ≠ 2 then t else lfu) ∧
    historyCount (loop (envAt t 2048) s).2 =
      (if usub t lfu > 5000 ∨ s.lastSystemState ≠ 2 then 1 else 0) := by
  subst h1 h2
  have hd := loop_envAt_2048_danger t s hg
  have ht := loop_timers (envAt t 2048) s hw
  have hc := historyCount_loop (envAt t 2048) s
  rw [hd] at ht hc
  have e1 : (envAt t 2048).currentMillis = t := rfl
  have e2 : (envAt t 2048).firebaseReady = true := rfl
  rw [e1] at ht hc
  refine ⟨ht.1, hd, by rw [ht.2.2.2], ?_, ?_, ?_⟩
  · rw [ht.2.1, if_pos hg]
  · rw [ht.2.2.1]
    by_cases h : usub t s.lastFirebaseUpload > 5000 ∨ s.lastSystemState ≠ 2
    · rw [if_pos h, if_pos (by rcases h with h | h; exact Or.inl h; exact Or.inr (Ne.symm h))]
    · rw [if_neg h, if_neg (by
        rintro (h3 | h3)
        · exact h (Or.inl h3)
        · exact h (Or.inr (Ne.symm h3)))]
  · rw [hc]
    have hiff : (s.wifiConnected = true ∧
        (usub t s.lastFirebaseUpload > 5000 ∨ 2 ≠ s.lastSystemState) ∧
        (envAt t 2048).firebaseReady = true ∧
        (usub (envAt t 2048).millisAtTest s.lastHistoryLog > 300000 ∨ (2 : Int) = 2)) ↔
        (usub t s.lastFirebaseUpload > 5000 ∨ s.lastSystemState ≠ 2) := by
      constructor
      · rintro ⟨_, h3 | h3, _⟩
        · exact Or.inl h3
        · exact Or.inr (Ne.symm h3)
      · intro h
        refine ⟨hw, ?_, e2, Or.inr rfl⟩
        rcases h with h | h
        · exact Or.inl h
        · exact Or.inr (Ne.symm h)
    by_cases h : usub t s.lastFirebaseUpload > 5000 ∨ s.lastSystemState ≠ 2
    · rw [if_pos h, if_pos (hiff.mpr h)]
    · rw [if_neg h, if_neg (fun h3 => h (hiff.mp h3))]

/-- Once the state is DANGER, passes with an echo of 2048 us keep it DANGER. -/
theorem run_stays_danger (es : List Env) (s : State) (hs : s.systemState = 2)
    (h : ∀ e ∈ es, e.echoDuration = 2048) : (run es s).1.systemState = 2 := by
  induction es generalizing s with
  | nil => exact hs
  | cons e rest ih =>
    have he : e.echoDuration = 2048 := h e (List.mem_cons_self _ _)
    have h1 : (loop e s).1.systemState = 2 := by
      rw [loop_systemState]
      unfold sensorReading
      split_ifs
      · show classify (getDistance e.echoDuration) _ _ = 2
        rw [he, getDistance_2048]
        unfold classify
        rw [if_pos (by norm_num [WATER_DANGER_CM])]
      · exact hs
    exact ih (loop e s).1 h1 (fun e1 h1 => h e1 (List.mem_cons_of_mem _ h1))

/-- The ten passes of `tenPasses`, run from start-up with the network up: the
second pass appends no history record, and the ten passes together append two
(at ticks 1000 and 7000). -/
theorem tenPasses_history :
    historyCount (loop (envAt 2000 2048)
      (loop (envAt 1000 2048) (initialState true)).1).2 = 0 ∧
    historyCount (run tenPasses (initialState true)).2 = 2 := by
  unfold tenPasses
  simp only [run, historyCount_append]
  have p1 := danger_pass_summary 1000 0 0 (initialState true) rfl rfl rfl (by decide)
  have c1 : usub 1000 0 > 5000 ∨ (initialState true).lastSystemState ≠ 2 :=
    Or.inr (by decide)
  rw [if_pos c1, if_pos c1] at p1
  generalize loop (envAt 1000 2048) (initialState true) = r1 at p1 ⊢
  obtain ⟨w1, -, l1, sr1, fu1, hc1⟩ := p1
  have p2 := danger_pass_summary 2000 1000 1000 r1.1 w1 sr1 fu1 (by decide)
  have c2 : ¬ (usub 2000 1000 > 5000 ∨ r1.1.lastSystemState ≠ 2) := by
    rw [l1]; decide
  rw [if_neg c2, if_neg c2] at p2
  generalize loop (envAt 2000 2048) r1.1 = r2 at p2 ⊢
  obtain ⟨w2, -, l2, sr2, fu2, hc2⟩ := p2
  have p3 := danger_pass_summary 3000 2000 1000 r2.1 w2 sr2 fu2 (by decide)
  have c3 : ¬ (usub 3000 1000 > 5000 ∨ r2.1.lastSystemState ≠ 2) := by
    rw [l2]; decide
  rw [if_neg c3, if_neg c3] at p3
  generalize loop (envAt 3000 2048) r2.1 = r3 at p3 ⊢
  obtain ⟨w3, -, l3, sr3, fu3, hc3⟩ := p3
  have p4 := danger_pass_summary 4000 3000 1000 r3.1 w3 sr3 fu3 (by decide)
  have c4 : ¬ (usub 4000 1000 > 5000 ∨ r3.1.lastSystemState ≠ 2) := by
    rw [l3]; decide
  rw [if_neg c4, if_neg c4] at p4
  generalize loop (envAt 4000 2048) r3.1 = r4 at p4 ⊢
  obtain ⟨w4, -, l4, sr4, fu4, hc4⟩ := p4
  have p5 := danger_pass_summary 5000 4000 1000 r4.1 w4 sr4 fu4 (by decide)
  have c5 : ¬ (usub 5000 1000 > 5000 ∨ r4.1.lastSystemState ≠ 2) := by
    rw [l4]; decide
  rw [if_neg c5, if_neg c5] at p5
  generalize loop (envAt 5000 2048) r4.1 = r5 at p5 ⊢
  obtain ⟨w5, -, l5, sr5, fu5, hc5⟩ := p5
  have p6 := danger_pass_summary 6000 5000 1000 r5.1 w5 sr5 fu5 (by decide)
  have c6 : ¬ (usub 6000 1000 > 5000 ∨ r5.1.lastSystemState ≠ 2) := by
    rw [l5]; decide
  rw [if_neg c6, if_neg c6] at p6
  generalize loop (envAt 6000 2048) r5.1 = r6 at p6 ⊢
  obtain ⟨w6, -, l6, sr6, fu6, hc6⟩ := p6
  have p7 := danger_pass_summary 7000 6000 1000 r6.1 w6 sr6 fu6 (by decide)
  have c7 : usub 7000 1000 > 5000 ∨ r6.1.lastSystemState ≠ 2 := Or.inl (by decide)
  rw [if_pos c7, if_pos c7] at p7
  generalize loop (envAt 7000 2048) r6.1 = r7 at p7 ⊢
  obtain ⟨w7, -, l7, sr7, fu7, hc7⟩ := p7
  have p8 := danger_pass_summary 8000 7000 7000 r7.1 w7 sr7 fu7 (by decide)
  have c8 : ¬ (usub 8000 7000 > 5000 ∨ r7.1.lastSystemState ≠ 2) := by
    rw [l7]; decide
  rw [if_neg c8, if_neg c8] at p8
  generalize loop (envAt 8000 2048) r7.1 = r8 at p8 ⊢
  obtain ⟨w8, -, l8, sr8, fu8, hc8⟩ := p8
  have p9 := danger_pass_summary 9000 8000 7000 r8.1 w8 sr8 fu8 (by decide)
  have c9 : ¬ (usub 9000 7000 > 5000 ∨ r8.1.lastSystemState ≠ 2) := by
    rw [l8]; decide
  rw [if_neg c9, if_neg c9] at p9
  generalize loop (envAt 9000 2048) r8.1 = r9 at p9 ⊢
  obtain ⟨w9, -, l9, sr9, fu9, hc9⟩ := p9
  have p10 := danger_pass_summary 10000 9000 7000 r9.1 w9 sr9 fu9 (by decide)
  have c10 : ¬ (usub 10000 7000 > 5000 ∨ r9.1.lastSystemState ≠ 2) := by
    rw [l9]; decide
  rw [if_neg c10, if_neg c10] at p10
  generalize loop (envAt 10000 2048) r9.1 = r10 at p10 ⊢
  obtain ⟨w10, -, l10, sr10, fu10, hc10⟩ := p10
  rw [hc1, hc2, hc3, hc4, hc5, hc6, hc7, hc8, hc9, hc10]
  simp [historyCount]


/-- C6, counterexample: ten passes one second apart, started with the network up
and the datastore ready, every one of them ending in DANGER; the second pass
appends no history record and the ten passes append two records, not ten. -/
theorem danger_evaluations_not_all_logged :
    (initialState true).wifiConnected = true ∧
    (∀ e ∈ tenPasses, e.firebaseReady = true) ∧
    (∀ k, 1 ≤ k → k ≤ 10 →
      (run (tenPasses.take k) (initialState true)).1.systemState = 2) ∧
    historyCount (loop (envAt 2000 2048)
      (loop (envAt 1000 2048) (initialState true)).1).2 = 0 ∧
    historyCount (run tenPasses (initialState true)).2 = 2 ∧
    historyCount (run tenPasses (initialState true)).2 ≠ 10 := by
  refine ⟨rfl, ?_, ?_, tenPasses_history.1, tenPasses_history.2, ?_⟩
  · intro e he
    simp only [tenPasses, List.mem_cons, List.mem_singleton, List.not_mem_nil, or_false] at he
    rcases he with h | h | h | h | h | h | h | h | h | h <;> rw [h] <;> rfl
  · intro k hk1 hk2
    obtain ⟨j, rfl⟩ : ∃ j, k = j + 1 := ⟨k - 1, by omega⟩
    have hrun : run (tenPasses.take (j + 1)) (initialState true) =
        ((run ((tenPasses.tail).take j) (loop (envAt 1000 2048) (initialState true)).1).1,
          (loop (envAt 1000 2048) (initialState true)).2 ++
            (run ((tenPasses.tail).take j)
              (loop (envAt 1000 2048) (initialState true)).1).2) := rfl
    rw [hrun]
    apply run_stays_danger
    · exact loop_envAt_2048_danger 1000 (initialState true) (by decide)
    · intro e he
      have he2 : e ∈ tenPasses := List.mem_of_mem_tail (List.mem_of_mem_take he)
      simp only [tenPasses, List.mem_cons, List.mem_singleton, List.not_mem_nil,
        or_false] at he2
      rcases he2 with h | h | h | h | h | h | h | h | h | h <;> rw [h] <;> rfl
  · rw [tenPasses_history.2]
    decide

/-- C6, amended: while the state is DANGER, the network up and the datastore ready,
a pass of `loop` appends one history record exactly when its upload section invokes
`sendToFirebase`, that is when more than 5000 ms have elapsed since the last live
upload or the state differs from `lastSystemState`, and appends none otherwise; ten
consecutive DANGER passes one second apart from start-up append two records. -/
theorem danger_history_with_upload (e : Env) (s : State)
    (hw : s.wifiConnected = true) (hr : e.firebaseReady = true)
    (hd : (loop e s).1.systemState = 2) :
    (historyCount (loop e s).2 = 1 ↔ Action.firebaseReady ∈ (loop e s).2) ∧
    (historyCount (loop e s).2 = 1 ↔
      (usub e.currentMillis s.lastFirebaseUpload > 5000 ∨ s.lastSystemState ≠ 2)) ∧
    (historyCount (loop e s).2 = 0 ↔
      ¬ (usub e.currentMillis s.lastFirebaseUpload > 5000 ∨ s.lastSystemState ≠ 2)) ∧
    historyCount (run tenPasses (initialState true)).2 = 2 := by
  have hf := sensorReading_frame e s
  have hw1 : (sensorReading e s).1.wifiConnected = true := by rw [hf.2.2.2]; exact hw
  have hd1 : (sensorReading e s).1.systemState = 2 := by rw [← loop_systemState]; exact hd
  have hc := historyCount_loop e s
  rw [hd] at hc
  have hiff : (s.wifiConnected = true ∧
      (usub e.currentMillis s.lastFirebaseUpload > 5000 ∨ 2 ≠ s.lastSystemState) ∧
      e.firebaseReady = true ∧
      (usub e.millisAtTest s.lastHistoryLog > 300000 ∨ (2 : Int) = 2)) ↔
      (usub e.currentMillis s.lastFirebaseUpload > 5000 ∨ s.lastSystemState ≠ 2) := by
    constructor
    · rintro ⟨_, h3 | h3, _⟩
      · exact Or.inl h3
      · exact Or.inr (Ne.symm h3)
    · intro h
      refine ⟨hw, ?_, hr, Or.inr rfl⟩
      rcases h with h | h
      · exact Or.inl h
      · exact Or.inr (Ne.symm h)
  have hmem : Action.firebaseReady ∈ (loop e s).2 ↔
      (usub e.currentMillis s.lastFirebaseUpload > 5000 ∨ s.lastSystemState ≠ 2) := by
    rw [firebaseReady_mem_loop, firebaseReady_mem_smartUpload, hf.1, hf.2.1, hd1]
    constructor
    · rintro ⟨_, h3 | h3⟩
      · exact Or.inl h3
      · exact Or.inr (Ne.symm h3)
    · intro h
      refine ⟨hw1, ?_⟩
      rcases h with h | h
      · exact Or.inl h
      · exact Or.inr (Ne.symm h)
  by_cases h : usub e.currentMillis s.lastFirebaseUpload > 5000 ∨ s.lastSystemState ≠ 2
  · rw [if_pos (hiff.mpr h)] at hc
    rw [hc, hmem]
    simp [h, tenPasses_history.2]
  · rw [if_neg (fun h3 => h (hiff.mp h3))] at hc
    rw [hc, hmem]
    simp [h, tenPasses_history.2]

/-- Witness for `danger_history_with_upload`: the pass that enters DANGER uploads
and logs. -/
theorem danger_history_with_upload_witness :
    (initialState true).wifiConnected = true ∧
    (loop (envAt 1000 2048) (initialState true)).1.systemState = 2 ∧
    historyCount (loop (envAt 1000 2048) (initialState true)).2 = 1 :=
  ⟨rfl, loop_envAt_2048_danger 1000 (initialState true) (by decide),
    (danger_history_with_upload (envAt 1000 2048) (initialState true) rfl rfl
      (loop_envAt_2048_danger 1000 (initialState true) (by decide))).2.1.mpr
      (Or.inr (by decide))⟩


/-! ## Monotonicity of the classifier -/

/-- The classifier's value is between 0 and 2, at least 2 exactly under the DANGER
condition and at least 1 exactly when some WARNING trigger holds. -/
theorem classify_levels (d : ℚ) (r s : Int) :
    0 ≤ classify d r s ∧ classify d r s ≤ 2 ∧
    (2 ≤ classify d r s ↔ (d < 45 ∨ (d < 55 ∧ (r < 1500 ∨ s > 80)))) ∧
    (1 ≤ classify d r s ↔ (d < 55 ∨ r < 2500 ∨ s > 50)) := by
  unfold classify
  simp only [WATER_DANGER_CM, WATER_WARN_CM, RAIN_HEAVY_THRESH, RAIN_LIGHT_THRESH]
  push_cast
  by_cases a : d < 45 <;> by_cases b : d < 55 <;>
    by_cases c : r < 1500 <;> by_cases f : s > 80 <;>
    by_cases g : r < 2500 <;> by_cases h : s > 50 <;>
    simp [a, b, c, f, g, h] <;>
    first | omega | linarith

/-- C19: the classifier is monotone in danger: a smaller distance, a lower rain
code and a higher soil percentage never give a less severe state
(SAFE = 0 < WARNING = 1 < DANGER = 2). -/
theorem classify_monotone (d1 d2 : ℚ) (r1 r2 s1 s2 : Int)
    (hd : d1 ≤ d2) (hr : r1 ≤ r2) (hs : s2 ≤ s1) :
    classify d2 r2 s2 ≤ classify d1 r1 s1 := by
  obtain ⟨p0, p2, pd, pw⟩ := classify_levels d1 r1 s1
  obtain ⟨q0, q2, qd, qw⟩ := classify_levels d2 r2 s2
  by_cases h2 : 2 ≤ classify d2 r2 s2
  · have hc : d1 < 45 ∨ (d1 < 55 ∧ (r1 < 1500 ∨ s1 > 80)) := by
      rcases qd.mp h2 with h | ⟨h, h3 | h3⟩
      · exact Or.inl (lt_of_le_of_lt hd h)
      · exact Or.inr ⟨lt_of_le_of_lt hd h, Or.inl (by omega)⟩
      · exact Or.inr ⟨lt_of_le_of_lt hd h, Or.inr (by omega)⟩
    have := pd.mpr hc
    omega
  · by_cases h1 : 1 ≤ classify d2 r2 s2
    · have hc : d1 < 55 ∨ r1 < 2500 ∨ s1 > 50 := by
        rcases qw.mp h1 with h | h | h
        · exact Or.inl (lt_of_le_of_lt hd h)
        · exact Or.inr (Or.inl (by omega))
        · exact Or.inr (Or.inr (by omega))
      have := pw.mpr hc
      omega
    · omega

/-- Witness for `classify_monotone`: 50 cm with heavy rain against 60 cm without. -/
theorem classify_monotone_witness : classify 60 3000 10 ≤ classify 50 1000 10 :=
  classify_monotone 50 60 1000 3000 10 10 (by norm_num) (by decide) (by decide)

/-! ## Timer gates across counter overflow -/

/-- Unsigned subtraction recovers the true elapsed time `d < 2^32` from the wrapped
counter. -/
theorem usub_wrap (last d : Nat) (hd : d < U32) : usub ((last + d) % U32) last = d := by
  unfold usub U32 at *
  omega

/-- C14: with `now = (last + d) mod 2^32` for a true elapsed time `d < 2^32`, every
timer gate fires exactly when `d` exceeds its period: the sensor gate (100), the
live-upload gate (5000, absent a state change), the dashboard gate (3000), the
history gate (300000, outside DANGER) and the alarm gates (600 in steps 1 and 3,
100 in steps 0, 2 and 4). -/
theorem timer_gates_wraparound (e : Env) (s : State) (d : Nat) (hd : d < U32) :
    (e.currentMillis = (s.lastSensorRead + d) % U32 →
      ((sensorReading e s).2 ≠ [] ↔ d > 100)) ∧
    (e.currentMillis = (s.lastFirebaseUpload + d) % U32 → s.wifiConnected = true →
      s.systemState = s.lastSystemState →
      (Action.firebaseReady ∈ (smartUpload e s).2 ↔ d > 5000)) ∧
    (e.currentMillis = (s.lastScreenUpdate + d) % U32 →
      ((lcdDashboard e s).2 ≠ [] ↔ d > 3000)) ∧
    (∀ (dist : ℚ) (rain soil state : Int),
      e.millisAtTest = (s.lastHistoryLog + d) % U32 → e.firebaseReady = true →
      state ≠ 2 →
      (historyCount (sendToFirebase e dist rain soil state s).2 = 1 ↔ d > 300000)) ∧
    (∀ now : Nat, now = (s.buzzerTimer + d) % U32 →
      ((s.buzzerStep = 1 ∨ s.buzzerStep = 3) →
        ((playPJLAlarm now s).1.buzzerStep = s.buzzerStep + 1 ↔ d > 600)) ∧
      ((s.buzzerStep = 0 ∨ s.buzzerStep = 2) →
        ((playPJLAlarm now s).1.buzzerStep = s.buzzerStep + 1 ↔ d > 100)) ∧
      (s.buzzerStep = 4 → ((playPJLAlarm now s).1.buzzerStep = 0 ↔ d > 100))) := by
  refine ⟨?_, ?_, ?_, ?_, ?_⟩
  · intro h
    have hu : usub e.currentMillis s.lastSensorRead = d := by
      rw [h]; exact usub_wrap _ _ hd
    unfold sensorReading
    rw [hu]
    by_cases hg : d > 100 <;> simp [hg]
  · intro h hw hsame
    have hu : usub e.currentMillis s.lastFirebaseUpload = d := by
      rw [h]; exact usub_wrap _ _ hd
    rw [firebaseReady_mem_smartUpload, hu]
    constructor
    · rintro ⟨_, h1 | h1⟩
      · exact h1
      · exact absurd hsame h1
    · intro h1
      exact ⟨hw, Or.inl h1⟩
  · intro h
    have hu : usub e.currentMillis s.lastScreenUpdate = d := by
      rw [h]; exact usub_wrap _ _ hd
    by_cases hg : d > 3000 <;> cases hl : s.lcdScreenOne <;>
      simp [lcdDashboard, hu, hg, hl]
  · intro dist rain soil state h hr hst
    have hu : usub e.millisAtTest s.lastHistoryLog = d := by
      rw [h]; exact usub_wrap _ _ hd
    rw [historyCount_sendToFirebase, hu]
    by_cases hg : d > 300000 <;> simp [hg, hr, hst]
  · intro now h
    have hu : usub now s.buzzerTimer = d := by
      rw [h]; exact usub_wrap _ _ hd
    rw [playPJLAlarm_step, hu]
    refine ⟨?_, ?_, ?_⟩ <;> intro hs <;> split_ifs <;> omega

/-- Witness for `timer_gates_wraparound`: a sensor poll 150 ms after a reading taken
50 ms before the counter overflows. -/
theorem timer_gates_wraparound_witness :
    (150 : Nat) < U32 ∧
    (sensorReading { envAt 100 0 with currentMillis := 100 }
      { initialState true with lastSensorRead := 4294967246 }).2 ≠ [] :=
  ⟨by decide,
    ((timer_gates_wraparound { envAt 100 0 with currentMillis := 100 }
      { initialState true with lastSensorRead := 4294967246 } 150 (by decide)).1
      (by decide)).mpr (by decide)⟩


/-! ## Which fields and calls each section of `loop` touches -/

/-- Section 1 of `loop` changes only the readings, the state and its own timer. -/
theorem sensorReading_shape (e : Env) (s : State) :
    ∃ t r p d st, (sensorReading e s).1 =
      { s with lastSensorRead := t, rainRaw := r, soilPercent := p, distance := d,
               systemState := st } := by
  unfold sensorReading
  split_ifs
  · exact ⟨_, _, _, _, _, rfl⟩
  · exact ⟨_, _, _, _, _, rfl⟩

/-- The function `sendToFirebase` changes only `lastHistoryLog`. -/
theorem sendToFirebase_shape (e : Env) (dist : ℚ) (rain soil state : Int) (s : State) :
    ∃ t, (sendToFirebase e dist rain soil state s).1 = { s with lastHistoryLog := t } := by
  unfold sendToFirebase
  simp only []
  split_ifs
  · exact ⟨_, rfl⟩
  · exact ⟨_, rfl⟩
  · exact ⟨_, rfl⟩

/-- Section 2 of `loop` changes only the three fields of the upload coordinator. -/
theorem smartUpload_shape (e : Env) (s : State) :
    ∃ t l h, (smartUpload e s).1 =
      { s with lastFirebaseUpload := t, lastSystemState := l, lastHistoryLog := h } := by
  obtain ⟨h, hh⟩ := sendToFirebase_shape e s.distance s.rainRaw s.soilPercent
    s.systemState { s with lastFirebaseUpload := e.currentMillis,
                           lastSystemState := s.systemState }
  unfold smartUpload
  simp only []
  split_ifs
  all_goals first
    | exact ⟨_, _, _, rfl⟩
    | (simp only [hh]; exact ⟨_, _, _, rfl⟩)

/-- The function `playPJLAlarm` changes only the sequencer's step and timer and the
two tone channels. -/
theorem playPJLAlarm_shape (t : Nat) (s : State) :
    ∃ st tm h l, (playPJLAlarm t s).1 =
      { s with buzzerStep := st, buzzerTimer := tm, toneHigh := h, toneLow := l } := by
  unfold playPJLAlarm
  split_ifs <;> exact ⟨_, _, _, _, rfl⟩

/-- Section 3 of `loop` changes only the LEDs, the tone channels and the
sequencer's step and timer. -/
theorem outputControl_shape (e : Env) (s : State) :
    ∃ g y r st tm h l, (outputControl e s).1 =
      { s with ledGreen := g, ledYellow := y, ledRed := r, buzzerStep := st,
               buzzerTimer := tm, toneHigh := h, toneLow := l } := by
  unfold outputControl
  split_ifs
  · exact ⟨_, _, _, _, _, _, _, rfl⟩
  · exact ⟨_, _, _, _, _, _, _, rfl⟩
  · obtain ⟨st, tm, h, l, hh⟩ := playPJLAlarm_shape e.currentMillis
      { s with ledGreen := false, ledYellow := false, ledRed := true }
    simp only []
    rw [hh]
    exact ⟨_, _, _, _, _, _, _, rfl⟩
  · exact ⟨_, _, _, _, _, _, _, rfl⟩

/-- Section 4 of `loop` changes only the page toggle and its own timer. -/
theorem lcdDashboard_shape (e : Env) (s : State) :
    ∃ t p, (lcdDashboard e s).1 = { s with lastScreenUpdate := t, lcdScreenOne := p } := by
  unfold lcdDashboard
  simp only []
  split_ifs
  all_goals exact ⟨_, _, rfl⟩


/-- The function `sendToFirebase` makes only serial-port and datastore calls. -/
theorem sendToFirebase_calls (e : Env) (dist : ℚ) (rain soil state : Int) (s : State) :
    ∀ a ∈ (sendToFirebase e dist rain soil state s).2, a.isLocal = false := by
  by_cases h1 : e.firebaseReady = true <;>
    by_cases h2 : (decide (usub e.millisAtTest s.lastHistoryLog > 300000) ||
      decide (state = 2)) = true <;>
    simp [sendToFirebase, h1, h2, Action.isLocal]

/-- Section 2 of `loop` makes only serial-port and datastore calls. -/
theorem smartUpload_calls (e : Env) (s : State) :
    ∀ a ∈ (smartUpload e s).2, a.isLocal = false := by
  have hs := sendToFirebase_calls e
  unfold smartUpload
  simp only []
  split_ifs
  · intro a ha
    rcases List.mem_append.mp ha with h | h
    · simp only [List.mem_singleton] at h
      rw [h]; rfl
    · exact hs _ _ _ _ _ a h
  · intro a ha
    rcases List.mem_append.mp ha with h | h
    · simp at h
    · exact hs _ _ _ _ _ a h
  · simp
  · simp

/-- Tone calls and sensor reads are local calls. -/
theorem isLocal_of_tone_or_sensor (a : Action)
    (h : a.isToneCall = true ∨ a.isSensorRead = true) : a.isLocal = true := by
  cases a <;> simp_all [Action.isLocal, Action.isToneCall, Action.isSensorRead]

/-- Section 2 of `loop` makes no local call: no tone call, no sensor read, nothing
on the LEDs or the display. -/
theorem smartUpload_no_local (e : Env) (s : State) :
    (smartUpload e s).2.filter Action.isLocal = [] ∧
    toneCalls (smartUpload e s).2 = [] ∧
    (smartUpload e s).2.filter Action.isSensorRead = [] := by
  have h := smartUpload_calls e s
  refine ⟨?_, ?_, ?_⟩
  · rw [List.filter_eq_nil_iff]
    intro a ha
    simp [h a ha]
  · unfold toneCalls
    rw [List.filter_eq_nil_iff]
    intro a ha ht
    have := isLocal_of_tone_or_sensor a (Or.inl ht)
    rw [h a ha] at this
    exact absurd this (by decide)
  · rw [List.filter_eq_nil_iff]
    intro a ha ht
    have := isLocal_of_tone_or_sensor a (Or.inr ht)
    rw [h a ha] at this
    exact absurd this (by decide)

/-- Section 1 of `loop` makes only local calls, none of them a tone call. -/
theorem sensorReading_calls (e : Env) (s : State) :
    (sensorReading e s).2.filter Action.isLocal = (sensorReading e s).2 ∧
    toneCalls (sensorReading e s).2 = [] := by
  unfold sensorReading
  split_ifs <;> simp [toneCalls, Action.isToneCall, Action.isLocal, getDistanceActions]

/-- Section 4 of `loop` makes only local calls, none of them a tone call or a
sensor read. -/
theorem lcdDashboard_calls (e : Env) (s : State) :
    (lcdDashboard e s).2.filter Action.isLocal = (lcdDashboard e s).2 ∧
    toneCalls (lcdDashboard e s).2 = [] ∧
    (lcdDashboard e s).2.filter Action.isSensorRead = [] := by
  unfold lcdDashboard
  simp only []
  split_ifs <;>
    simp [toneCalls, Action.isToneCall, Action.isLocal, Action.isSensorRead]

/-- Every call of `playPJLAlarm` is a tone call. -/
theorem playPJLAlarm_calls (t : Nat) (s : State) :
    toneCalls (playPJLAlarm t s).2 = (playPJLAlarm t s).2 ∧
    (playPJLAlarm t s).2.filter Action.isLocal = (playPJLAlarm t s).2 ∧
    (playPJLAlarm t s).2.filter Action.isSensorRead = [] ∧
    (playPJLAlarm t s).2.length ≤ 1 := by
  unfold playPJLAlarm
  split_ifs <;>
    simp [toneCalls, Action.isToneCall, Action.isLocal, Action.isSensorRead]

/-- The step, the timer and the calls of `playPJLAlarm` depend only on the
sequencer's fields of the state it is applied to. -/
theorem playPJLAlarm_congr (t : Nat) (a b : State)
    (h1 : a.buzzerStep = b.buzzerStep) (h2 : a.buzzerTimer = b.buzzerTimer)
    (h3 : a.toneHigh = b.toneHigh) (h4 : a.toneLow = b.toneLow) :
    (playPJLAlarm t a).2 = (playPJLAlarm t b).2 ∧
    (playPJLAlarm t a).1.buzzerStep = (playPJLAlarm t b).1.buzzerStep ∧
    (playPJLAlarm t a).1.buzzerTimer = (playPJLAlarm t b).1.buzzerTimer ∧
    (playPJLAlarm t a).1.toneHigh = (playPJLAlarm t b).1.toneHigh ∧
    (playPJLAlarm t a).1.toneLow = (playPJLAlarm t b).1.toneLow := by
  unfold playPJLAlarm
  rw [h1, h2]
  split_ifs <;> simp [h1, h2, h3, h4]


/-- Section 3 of `loop` in SAFE or WARNING: the LED of the state is lit, both
tone channels are stopped by `silenceBuzzers`, the step is reset and the
sequencer's timer is left alone. -/
theorem outputControl_quiet (e : Env) (m : State)
    (h : m.systemState = 0 ∨ m.systemState = 1) :
    (outputControl e m).1.ledGreen = decide (m.systemState = 0) ∧
    (outputControl e m).1.ledYellow = decide (m.systemState = 1) ∧
    (outputControl e m).1.ledRed = false ∧
    (outputControl e m).1.toneHigh = none ∧
    (outputControl e m).1.toneLow = none ∧
    (outputControl e m).1.buzzerStep = 0 ∧
    (outputControl e m).1.buzzerTimer = m.buzzerTimer ∧
    toneCalls (outputControl e m).2 = [Action.noTone BUZZER_HIGH, Action.noTone BUZZER_LOW] ∧
    (outputControl e m).2.filter Action.isSensorRead = [] ∧
    (outputControl e m).2.filter Action.isLocal = (outputControl e m).2 := by
  rcases h with h | h <;>
    simp [outputControl, silenceBuzzers, h, toneCalls, Action.isToneCall,
      Action.isSensorRead, Action.isLocal]

/-- Section 3 of `loop` in DANGER: the red LED is lit and the sequencer does what
`playPJLAlarm(currentMillis)` does. -/
theorem outputControl_danger (e : Env) (m : State) (h : m.systemState = 2) :
    (outputControl e m).1.ledGreen = false ∧
    (outputControl e m).1.ledYellow = false ∧
    (outputControl e m).1.ledRed = true ∧
    (outputControl e m).1.toneHigh = (playPJLAlarm e.currentMillis m).1.toneHigh ∧
    (outputControl e m).1.toneLow = (playPJLAlarm e.currentMillis m).1.toneLow ∧
    (outputControl e m).1.buzzerStep = (playPJLAlarm e.currentMillis m).1.buzzerStep ∧
    (outputControl e m).1.buzzerTimer = (playPJLAlarm e.currentMillis m).1.buzzerTimer ∧
    toneCalls (outputControl e m).2 = (playPJLAlarm e.currentMillis m).2 ∧
    (outputControl e m).2.filter Action.isSensorRead = [] ∧
    (outputControl e m).2.filter Action.isLocal = (outputControl e m).2 := by
  have hc := playPJLAlarm_congr e.currentMillis
    { m with ledGreen := false, ledYellow := false, ledRed := true } m rfl rfl rfl rfl
  have hk := playPJLAlarm_calls e.currentMillis
    { m with ledGreen := false, ledYellow := false, ledRed := true }
  obtain ⟨st, tm, hh, l, hs⟩ := playPJLAlarm_shape e.currentMillis
    { m with ledGreen := false, ledYellow := false, ledRed := true }
  have e0 : outputControl e m =
      ((playPJLAlarm e.currentMillis
          { m with ledGreen := false, ledYellow := false, ledRed := true }).1,
        [Action.digitalWrite LED_GREEN false, Action.digitalWrite LED_YELLOW false,
          Action.digitalWrite LED_RED true] ++
        (playPJLAlarm e.currentMillis
          { m with ledGreen := false, ledYellow := false, ledRed := true }).2) := by
    unfold outputControl
    rw [if_neg (by omega), if_neg (by omega), if_pos h]
  rw [e0]
  refine ⟨?_, ?_, ?_, hc.2.2.2.1, hc.2.2.2.2, hc.2.1, hc.2.2.1, ?_, ?_, ?_⟩
  · simp only [hs]
  · simp only [hs]
  · simp only [hs]
  · show toneCalls (_ ++ _) = _
    unfold toneCalls
    rw [List.filter_append]
    have h1 := hk.1
    unfold toneCalls at h1
    rw [h1, hc.1]
    simp [Action.isToneCall]
  · show List.filter _ (_ ++ _) = _
    rw [List.filter_append, hk.2.2.1]
    simp [Action.isSensorRead]
  · show List.filter _ (_ ++ _) = _
    rw [List.filter_append, hk.2.1]
    simp [Action.isLocal]


/-- The state on which section 3 of a pass runs has the readings and the state
derived by section 1 and the sequencer fields the pass started with. -/
theorem smartUpload_mid (e : Env) (s : State) :
    (smartUpload e (sensorReading e s).1).1.systemState =
      (sensorReading e s).1.systemState ∧
    (smartUpload e (sensorReading e s).1).1.buzzerStep = s.buzzerStep ∧
    (smartUpload e (sensorReading e s).1).1.buzzerTimer = s.buzzerTimer ∧
    (smartUpload e (sensorReading e s).1).1.toneHigh = s.toneHigh ∧
    (smartUpload e (sensorReading e s).1).1.toneLow = s.toneLow := by
  obtain ⟨t, l, h, h2⟩ := smartUpload_shape e (sensorReading e s).1
  obtain ⟨t1, r, p, d, st, h1⟩ := sensorReading_shape e s
  rw [h2]
  refine ⟨rfl, ?_, ?_, ?_, ?_⟩ <;> simp only [h1]

/-- Where the fields of the state after a pass of `loop` come from: the readings
and the state from section 1, the LEDs and the sequencer from section 3. -/
theorem loop_fields (e : Env) (s : State) :
    (loop e s).1.rainRaw = (sensorReading e s).1.rainRaw ∧
    (loop e s).1.soilPercent = (sensorReading e s).1.soilPercent ∧
    (loop e s).1.distance = (sensorReading e s).1.distance ∧
    (loop e s).1.lastSensorRead = (sensorReading e s).1.lastSensorRead ∧
    (loop e s).1.ledGreen =
      (outputControl e (smartUpload e (sensorReading e s).1).1).1.ledGreen ∧
    (loop e s).1.ledYellow =
      (outputControl e (smartUpload e (sensorReading e s).1).1).1.ledYellow ∧
    (loop e s).1.ledRed =
      (outputControl e (smartUpload e (sensorReading e s).1).1).1.ledRed ∧
    (loop e s).1.toneHigh =
      (outputControl e (smartUpload e (sensorReading e s).1).1).1.toneHigh ∧
    (loop e s).1.toneLow =
      (outputControl e (smartUpload e (sensorReading e s).1).1).1.toneLow ∧
    (loop e s).1.buzzerStep =
      (outputControl e (smartUpload e (sensorReading e s).1).1).1.buzzerStep ∧
    (loop e s).1.buzzerTimer =
      (outputControl e (smartUpload e (sensorReading e s).1).1).1.buzzerTimer := by
  obtain ⟨t4, p4, h4⟩ := lcdDashboard_shape e
    (outputControl e (smartUpload e (sensorReading e s).1).1).1
  obtain ⟨g, y, r, st, tm, hh, l, h3⟩ := outputControl_shape e
    (smartUpload e (sensorReading e s).1).1
  obtain ⟨t2, l2, hl2, h2⟩ := smartUpload_shape e (sensorReading e s).1
  have e0 : (loop e s).1 =
      (lcdDashboard e (outputControl e (smartUpload e (sensorReading e s).1).1).1).1 := rfl
  rw [e0, h4]
  refine ⟨?_, ?_, ?_, ?_, rfl, rfl, rfl, rfl, rfl, rfl, rfl⟩ <;>
    (simp only [h3]; simp only [h2])

/-- The tone calls of a pass are those of its section 3, and its sensor reads those
of its section 1. -/
theorem loop_calls (e : Env) (s : State) :
    toneCalls (loop e s).2 =
      toneCalls (outputControl e (smartUpload e (sensorReading e s).1).1).2 ∧
    ((loop e s).2.filter Action.isSensorRead = [] ↔
      (sensorReading e s).2.filter Action.isSensorRead = []) := by
  have e0 : (loop e s).2 = (sensorReading e s).2 ++
      (smartUpload e (sensorReading e s).1).2 ++
      (outputControl e (smartUpload e (sensorReading e s).1).1).2 ++
      (lcdDashboard e (outputControl e (smartUpload e (sensorReading e s).1).1).1).2 := rfl
  have hs : ∀ m : State, (outputControl e m).2.filter Action.isSensorRead = [] := by
    intro m
    have hp := fun t s1 => (playPJLAlarm_calls t s1).2.2.1
    unfold outputControl
    split_ifs
    · simp [silenceBuzzers, Action.isSensorRead]
    · simp [silenceBuzzers, Action.isSensorRead]
    · simp [hp, Action.isSensorRead]
    · simp
  rw [e0]
  constructor
  · unfold toneCalls
    simp only [List.filter_append]
    have h1 := (sensorReading_calls e s).2
    have h2 := (smartUpload_no_local e (sensorReading e s).1).2.1
    have h4 := (lcdDashboard_calls e
      (outputControl e (smartUpload e (sensorReading e s).1).1).1).2.1
    unfold toneCalls at h1 h2 h4
    rw [h1, h2, h4]
    simp
  · simp only [List.filter_append, (smartUpload_no_local e (sensorReading e s).1).2.2,
      hs, (lcdDashboard_calls e _).2.2, List.append_nil]


/-! ## Output control -/

/-- C11: in every pass of `loop` whose derived state is SAFE or WARNING, both tone
channels are stopped and the alarm step is 0 at the end of that pass, whatever they
were before, and the pass issues `noTone` on both channels. -/
theorem leaving_danger_silences (e : Env) (s : State)
    (h : (loop e s).1.systemState = 0 ∨ (loop e s).1.systemState = 1) :
    (loop e s).1.toneHigh = none ∧ (loop e s).1.toneLow = none ∧
    (loop e s).1.buzzerStep = 0 ∧
    toneCalls (loop e s).2 = [Action.noTone BUZZER_HIGH, Action.noTone BUZZER_LOW] := by
  rw [loop_systemState, ← (smartUpload_mid e s).1] at h
  have hq := outputControl_quiet e _ h
  have hf := loop_fields e s
  refine ⟨?_, ?_, ?_, ?_⟩
  · rw [hf.2.2.2.2.2.2.2.1]; exact hq.2.2.2.1
  · rw [hf.2.2.2.2.2.2.2.2.1]; exact hq.2.2.2.2.1
  · rw [hf.2.2.2.2.2.2.2.2.2.1]; exact hq.2.2.2.2.2.1
  · rw [(loop_calls e s).1]; exact hq.2.2.2.2.2.2.2.1

/-- Witness for `leaving_danger_silences`: the high tone is sounding in step 1 when
a pass reads an echo timeout and derives SAFE. -/
theorem leaving_danger_silences_witness :
    (loop (envAt 1200 0)
      { initialState true with systemState := 2, buzzerStep := 1, toneHigh := some 2000,
                               buzzerTimer := 1000, lastSensorRead := 1000 }).1.toneHigh
      = none :=
  (leaving_danger_silences (envAt 1200 0)
    { initialState true with systemState := 2, buzzerStep := 1, toneHigh := some 2000,
                             buzzerTimer := 1000, lastSensorRead := 1000 }
    (Or.inl (by decide))).1

/-- C12, counterexample: two passes in a row derive SAFE; the second one, whose
previous pass was already SAFE, again issues `noTone` on both channels. -/
theorem tone_stop_repeated :
    (loop (envAt 150 0) (initialState true)).1.systemState = 0 ∧
    (loop (envAt 300 0) (loop (envAt 150 0) (initialState true)).1).1.systemState = 0 ∧
    toneCalls (loop (envAt 300 0) (loop (envAt 150 0) (initialState true)).1).2 =
      [Action.noTone BUZZER_HIGH, Action.noTone BUZZER_LOW] ∧
    toneCalls (loop (envAt 300 0) (loop (envAt 150 0) (initialState true)).1).2 ≠ [] := by
  decide

/-- C12, amended: the stop of the two tone channels is issued in every pass whose
state is SAFE or WARNING, exactly one `noTone` per channel and pass, also when the
previous pass was already SAFE or WARNING. -/
theorem tone_stop_every_quiet_pass (e1 e2 : Env) (s : State)
    (h1 : (loop e1 s).1.systemState = 0 ∨ (loop e1 s).1.systemState = 1)
    (h2 : (loop e2 (loop e1 s).1).1.systemState = 0 ∨
      (loop e2 (loop e1 s).1).1.systemState = 1) :
    toneCalls (loop e1 s).2 = [Action.noTone BUZZER_HIGH, Action.noTone BUZZER_LOW] ∧
    toneCalls (loop e2 (loop e1 s).1).2 =
      [Action.noTone BUZZER_HIGH, Action.noTone BUZZER_LOW] := by
  have key : ∀ (e : Env) (s0 : State),
      ((loop e s0).1.systemState = 0 ∨ (loop e s0).1.systemState = 1) →
      toneCalls (loop e s0).2 = [Action.noTone BUZZER_HIGH, Action.noTone BUZZER_LOW] := by
    intro e s0 h
    rw [loop_systemState, ← (smartUpload_mid e s0).1] at h
    rw [(loop_calls e s0).1]
    exact (outputControl_quiet e _ h).2.2.2.2.2.2.2.1
  exact ⟨key e1 s h1, key e2 _ h2⟩

/-- Witness for `tone_stop_every_quiet_pass`: two SAFE passes after start-up. -/
theorem tone_stop_every_quiet_pass_witness :
    toneCalls (loop (envAt 300 0) (loop (envAt 150 0) (initialState true)).1).2 =
      [Action.noTone BUZZER_HIGH, Action.noTone BUZZER_LOW] :=
  (tone_stop_every_quiet_pass (envAt 150 0) (envAt 300 0) (initialState true)
    (Or.inl (by decide)) (Or.inl (by decide))).2


/-! ## Sampling cadence -/

/-- C17: in a pass of `loop` where the unsigned time since `lastSensorRead` is not
more than 100 ms no sensor is read and `rainRaw`, `soilPercent`, `distance`,
`systemState` and `lastSensorRead` keep their values; when it is more than 100 ms
the sensors are read, `lastSensorRead` becomes the current tick, the readings are
the fresh samples and `systemState` is their classification. -/
theorem readings_reused (e : Env) (s : State) :
    (usub e.currentMillis s.lastSensorRead ≤ 100 →
      (loop e s).2.filter Action.isSensorRead = [] ∧
      (loop e s).1.rainRaw = s.rainRaw ∧ (loop e s).1.soilPercent = s.soilPercent ∧
      (loop e s).1.distance = s.distance ∧ (loop e s).1.systemState = s.systemState ∧
      (loop e s).1.lastSensorRead = s.lastSensorRead) ∧
    (usub e.currentMillis s.lastSensorRead > 100 →
      (loop e s).2.filter Action.isSensorRead ≠ [] ∧
      (loop e s).1.lastSensorRead = e.currentMillis ∧
      (loop e s).1.rainRaw = e.rainSample ∧
      (loop e s).1.soilPercent = soilPercentOf e.soilSample ∧
      (loop e s).1.distance = getDistance e.echoDuration ∧
      (loop e s).1.systemState =
        classify (getDistance e.echoDuration) e.rainSample (soilPercentOf e.soilSample)) := by
  have hf := loop_fields e s
  have hc := (loop_calls e s).2
  rw [hf.1, hf.2.1, hf.2.2.1, hf.2.2.2.1, loop_systemState]
  constructor
  · intro h
    have hn : ¬ usub e.currentMillis s.lastSensorRead > 100 := by omega
    have e0 : sensorReading e s = (s, []) := by
      unfold sensorReading
      rw [if_neg hn]
    rw [hc, e0]
    exact ⟨rfl, rfl, rfl, rfl, rfl, rfl⟩
  · intro h
    have e0 : sensorReading e s =
        ({ s with lastSensorRead := e.currentMillis, rainRaw := e.rainSample,
                  soilPercent := soilPercentOf e.soilSample,
                  distance := getDistance e.echoDuration,
                  systemState := classify (getDistance e.echoDuration) e.rainSample
                    (soilPercentOf e.soilSample) },
         [Action.analogRead RAIN_PIN, Action.analogRead SOIL_PIN] ++ getDistanceActions) := by
      unfold sensorReading
      rw [if_pos h]
    refine ⟨?_, ?_⟩
    · rw [Ne, hc, e0]
      simp [Action.isSensorRead, getDistanceActions]
    · rw [e0]
      exact ⟨rfl, rfl, rfl, rfl, rfl⟩

/-- Witness for `readings_reused`: a pass 50 ms after the last sample keeps the
state that was derived then. -/
theorem readings_reused_witness :
    usub 1050 { initialState true with lastSensorRead := 1000, systemState := 2 }.lastSensorRead
      ≤ 100 ∧
    (loop (envAt 1050 0)
      { initialState true with lastSensorRead := 1000, systemState := 2 }).1.systemState = 2 :=
  ⟨by decide,
    ((readings_reused (envAt 1050 0)
      { initialState true with lastSensorRead := 1000, systemState := 2 }).1
      (by decide)).2.2.2.2.1⟩

/-! ## State range, LEDs and evaluation of the sequencer -/

/-- A pass of `loop` keeps `systemState` in {0, 1, 2}. -/
theorem loop_state_range (e : Env) (s : State)
    (h : s.systemState = 0 ∨ s.systemState = 1 ∨ s.systemState = 2) :
    (loop e s).1.systemState = 0 ∨ (loop e s).1.systemState = 1 ∨
      (loop e s).1.systemState = 2 := by
  rw [loop_systemState]
  unfold sensorReading
  split_ifs
  · have hl := classify_levels (getDistance e.echoDuration) e.rainSample
      (soilPercentOf e.soilSample)
    show classify _ _ _ = 0 ∨ classify _ _ _ = 1 ∨ classify _ _ _ = 2
    omega
  · exact h

/-- Any number of passes of `loop` keeps `systemState` in {0, 1, 2}. -/
theorem run_state_range (es : List Env) (s : State)
    (h : s.systemState = 0 ∨ s.systemState = 1 ∨ s.systemState = 2) :
    (run es s).1.systemState = 0 ∨ (run es s).1.systemState = 1 ∨
      (run es s).1.systemState = 2 := by
  induction es generalizing s with
  | nil => exact h
  | cons e rest ih => exact ih (loop e s).1 (loop_state_range e s h)

/-- C20: starting with `systemState` in {0, 1, 2} (it starts at 0), after any number
of passes of `loop` it is still one of 0, 1, 2; at the end of every further pass
the green LED is on iff the state is SAFE, the yellow iff WARNING, the red iff
DANGER, so exactly one is on; and the tone calls of the pass are those of
`playPJLAlarm(currentMillis)`, i.e. the sequencer is evaluated, iff the state is
DANGER. -/
theorem state_led_invariant (es : List Env) (e : Env) (s : State)
    (h : s.systemState = 0 ∨ s.systemState = 1 ∨ s.systemState = 2) :
    ((run es s).1.systemState = 0 ∨ (run es s).1.systemState = 1 ∨
      (run es s).1.systemState = 2) ∧
    ((loop e (run es s).1).1.systemState = 0 ∨ (loop e (run es s).1).1.systemState = 1 ∨
      (loop e (run es s).1).1.systemState = 2) ∧
    ((loop e (run es s).1).1.ledGreen = true ↔ (loop e (run es s).1).1.systemState = 0) ∧
    ((loop e (run es s).1).1.ledYellow = true ↔ (loop e (run es s).1).1.systemState = 1) ∧
    ((loop e (run es s).1).1.ledRed = true ↔ (loop e (run es s).1).1.systemState = 2) ∧
    (toneCalls (loop e (run es s).1).2 = (playPJLAlarm e.currentMillis (run es s).1).2 ∧
        (loop e (run es s).1).1.buzzerStep =
          (playPJLAlarm e.currentMillis (run es s).1).1.buzzerStep ∧
        (loop e (run es s).1).1.buzzerTimer =
          (playPJLAlarm e.currentMillis (run es s).1).1.buzzerTimer ↔
      (loop e (run es s).1).1.systemState = 2) := by
  have hr := run_state_range es s h
  generalize (run es s).1 = s1 at hr ⊢
  have hl := loop_state_range e s1 hr
  have hf := loop_fields e s1
  have hm := smartUpload_mid e s1
  have hc := (loop_calls e s1).1
  have hst := loop_systemState e s1
  refine ⟨hr, hl, ?_⟩
  rw [hf.2.2.2.2.1, hf.2.2.2.2.2.1, hf.2.2.2.2.2.2.1, hf.2.2.2.2.2.2.2.2.2.1,
    hf.2.2.2.2.2.2.2.2.2.2, hc]
  by_cases hq : (loop e s1).1.systemState = 0 ∨ (loop e s1).1.systemState = 1
  · have hq2 : (smartUpload e (sensorReading e s1).1).1.systemState = 0 ∨
        (smartUpload e (sensorReading e s1).1).1.systemState = 1 := by
      rw [hm.1, ← hst]; exact hq
    have ho := outputControl_quiet e _ hq2
    have hlen := (playPJLAlarm_calls e.currentMillis s1).2.2.2
    rw [ho.1, ho.2.1, ho.2.2.1, ho.2.2.2.2.2.2.2.1, hm.1, ← hst]
    refine ⟨?_, ?_, ?_, ?_⟩
    · simp
    · simp
    · constructor
      · intro hh; exact absurd hh (by decide)
      · intro hh; omega
    · constructor
      · rintro ⟨hh, -, -⟩
        rw [← hh] at hlen
        simp at hlen
      · intro hh; omega
  · have hd : (loop e s1).1.systemState = 2 := by omega
    have hd2 : (smartUpload e (sensorReading e s1).1).1.systemState = 2 := by
      rw [hm.1, ← hst]; exact hd
    have ho := outputControl_danger e _ hd2
    have hcg := playPJLAlarm_congr e.currentMillis
      (smartUpload e (sensorReading e s1).1).1 s1 hm.2.1 hm.2.2.1 hm.2.2.2.1 hm.2.2.2.2
    rw [ho.1, ho.2.1, ho.2.2.1, ho.2.2.2.2.2.2.2.1, ho.2.2.2.2.2.1, ho.2.2.2.2.2.2.1,
      hcg.1, hcg.2.1, hcg.2.2.1]
    refine ⟨?_, ?_, ?_, ?_⟩
    · constructor
      · intro hh; exact absurd hh (by decide)
      · intro hh; omega
    · constructor
      · intro hh; exact absurd hh (by decide)
      · intro hh; omega
    · exact ⟨fun _ => hd, fun _ => rfl⟩
    · exact ⟨fun _ => hd, fun _ => ⟨rfl, rfl, rfl⟩⟩

/-- Witness for `state_led_invariant`: after the ten DANGER passes the red LED is
on. -/
theorem state_led_invariant_witness :
    (initialState true).systemState = 0 ∧
    ((loop (envAt 11000 2048) (run tenPasses (initialState true)).1).1.ledRed = true ↔
      (loop (envAt 11000 2048) (run tenPasses (initialState true)).1).1.systemState = 2) :=
  ⟨rfl, (state_led_invariant tenPasses (envAt 11000 2048) (initialState true)
    (Or.inl rfl)).2.2.2.2.1⟩


/-! ## Local signalling does not depend on the network -/

/-- Section 1 of `loop` neither reads nor writes the network fields. -/
theorem sensorReading_localView (e : Env) (s : State) :
    (sensorReading e s).1.localView = (sensorReading e s.localView).1 ∧
    (sensorReading e s).2 = (sensorReading e s.localView).2 := by
  unfold sensorReading
  dsimp only [State.localView]
  split_ifs <;> exact ⟨rfl, rfl⟩

/-- The function `playPJLAlarm` neither reads nor writes the network fields. -/
theorem playPJLAlarm_localView (t : Nat) (s : State) :
    (playPJLAlarm t s).1.localView = (playPJLAlarm t s.localView).1 ∧
    (playPJLAlarm t s).2 = (playPJLAlarm t s.localView).2 := by
  unfold playPJLAlarm
  dsimp only [State.localView]
  split_ifs <;> exact ⟨rfl, rfl⟩

/-- Section 3 of `loop` neither reads nor writes the network fields. -/
theorem outputControl_localView (e : Env) (s : State) :
    (outputControl e s).1.localView = (outputControl e s.localView).1 ∧
    (outputControl e s).2 = (outputControl e s.localView).2 := by
  have hp := playPJLAlarm_localView e.currentMillis
    { s with ledGreen := false, ledYellow := false, ledRed := true }
  unfold outputControl
  dsimp only [State.localView] at hp ⊢
  split_ifs
  · exact ⟨rfl, rfl⟩
  · exact ⟨rfl, rfl⟩
  · exact ⟨hp.1, by rw [hp.2]⟩
  · exact ⟨rfl, rfl⟩

/-- Section 4 of `loop` neither reads nor writes the network fields. -/
theorem lcdDashboard_localView (e : Env) (s : State) :
    (lcdDashboard e s).1.localView = (lcdDashboard e s.localView).1 ∧
    (lcdDashboard e s).2 = (lcdDashboard e s.localView).2 := by
  unfold lcdDashboard
  dsimp only [State.localView]
  split_ifs <;> exact ⟨rfl, rfl⟩

/-- Section 2 of `loop` writes network fields only. -/
theorem smartUpload_localView (e : Env) (s : State) :
    (smartUpload e s).1.localView = s.localView := by
  obtain ⟨t, l, h, hh⟩ := smartUpload_shape e s
  rw [hh]
  rfl

/-- Every call of section 3 of `loop` is a local call. -/
theorem outputControl_local (e : Env) (s : State) :
    (outputControl e s).2.filter Action.isLocal = (outputControl e s).2 := by
  have hp := fun t s1 => (playPJLAlarm_calls t s1).2.1
  unfold outputControl
  split_ifs
  · simp [silenceBuzzers, Action.isLocal]
  · simp [silenceBuzzers, Action.isLocal]
  · simp [hp, Action.isLocal]
  · simp

/-- The local part of a pass of `loop`: its state up to the network fields and its
local calls are those of sections 1, 3 and 4 run on the local view of the state. -/
theorem loop_localView (e : Env) (s : State) :
    (loop e s).1.localView =
      (lcdDashboard e (outputControl e (sensorReading e s.localView).1).1).1 ∧
    (loop e s).2.filter Action.isLocal =
      (sensorReading e s.localView).2 ++
      (outputControl e (sensorReading e s.localView).1).2 ++
      (lcdDashboard e (outputControl e (sensorReading e s.localView).1).1).2 := by
  have e1 : (loop e s).1 =
      (lcdDashboard e (outputControl e (smartUpload e (sensorReading e s).1).1).1).1 := rfl
  have e2 : (loop e s).2 = (sensorReading e s).2 ++
      (smartUpload e (sensorReading e s).1).2 ++
      (outputControl e (smartUpload e (sensorReading e s).1).1).2 ++
      (lcdDashboard e (outputControl e (smartUpload e (sensorReading e s).1).1).1).2 := rfl
  have hmid : (outputControl e (smartUpload e (sensorReading e s).1).1).1.localView =
      (outputControl e (sensorReading e s.localView).1).1 := by
    rw [(outputControl_localView e _).1, smartUpload_localView,
      (sensorReading_localView e s).1]
  constructor
  · rw [e1, (lcdDashboard_localView e _).1, hmid]
  · rw [e2]
    simp only [List.filter_append, (sensorReading_calls e s).1,
      (smartUpload_no_local e _).1, outputControl_local, (lcdDashboard_calls e _).1,
      List.append_nil]
    rw [(sensorReading_localView e s).2, (outputControl_localView e _).2,
      smartUpload_localView, (sensorReading_localView e s).1,
      (lcdDashboard_localView e _).2, hmid]

/-- States with equal local views agree on every field other than the network
fields. -/
theorem localView_fields (a b : State) (h : a.localView = b.localView) :
    a.ledGreen = b.ledGreen ∧
    a.ledYellow = b.ledYellow ∧
    a.ledRed = b.ledRed ∧
    a.toneHigh = b.toneHigh ∧
    a.toneLow = b.toneLow ∧
    a.rainRaw = b.rainRaw ∧
    a.soilPercent = b.soilPercent ∧
    a.distance = b.distance ∧
    a.systemState = b.systemState ∧
    a.buzzerStep = b.buzzerStep ∧
    a.buzzerTimer = b.buzzerTimer ∧
    a.lcdScreenOne = b.lcdScreenOne ∧
    a.lastSensorRead = b.lastSensorRead ∧
    a.lastScreenUpdate = b.lastScreenUpdate := by
  refine ⟨?_, ?_, ?_, ?_, ?_, ?_, ?_, ?_, ?_, ?_, ?_, ?_, ?_, ?_⟩
  · have h1 := congrArg State.ledGreen h
    exact h1
  · have h1 := congrArg State.ledYellow h
    exact h1
  · have h1 := congrArg State.ledRed h
    exact h1
  · have h1 := congrArg State.toneHigh h
    exact h1
  · have h1 := congrArg State.toneLow h
    exact h1
  · have h1 := congrArg State.rainRaw h
    exact h1
  · have h1 := congrArg State.soilPercent h
    exact h1
  · have h1 := congrArg State.distance h
    exact h1
  · have h1 := congrArg State.systemState h
    exact h1
  · have h1 := congrArg State.buzzerStep h
    exact h1
  · have h1 := congrArg State.buzzerTimer h
    exact h1
  · have h1 := congrArg State.lcdScreenOne h
    exact h1
  · have h1 := congrArg State.lastSensorRead h
    exact h1
  · have h1 := congrArg State.lastScreenUpdate h
    exact h1

/-- C13: two passes of `loop` whose pre-states agree on everything except the
network fields, with the same tick and the same sensor inputs (whatever the
datastore's readiness and clock), make the same local calls (LEDs, tones, display,
sensing) and end in states that agree on everything except the network fields. -/
theorem local_signalling_independent (e1 e2 : Env) (s1 s2 : State)
    (hs : s1.localView = s2.localView)
    (ht : e1.currentMillis = e2.currentMillis) (hr : e1.rainSample = e2.rainSample)
    (hp : e1.soilSample = e2.soilSample) (hd : e1.echoDuration = e2.echoDuration) :
    (loop e1 s1).2.filter Action.isLocal = (loop e2 s2).2.filter Action.isLocal ∧
    (loop e1 s1).1.localView = (loop e2 s2).1.localView ∧
    (loop e1 s1).1.ledGreen = (loop e2 s2).1.ledGreen ∧
    (loop e1 s1).1.ledYellow = (loop e2 s2).1.ledYellow ∧
    (loop e1 s1).1.ledRed = (loop e2 s2).1.ledRed ∧
    (loop e1 s1).1.toneHigh = (loop e2 s2).1.toneHigh ∧
    (loop e1 s1).1.toneLow = (loop e2 s2).1.toneLow ∧
    (loop e1 s1).1.rainRaw = (loop e2 s2).1.rainRaw ∧
    (loop e1 s1).1.soilPercent = (loop e2 s2).1.soilPercent ∧
    (loop e1 s1).1.distance = (loop e2 s2).1.distance ∧
    (loop e1 s1).1.systemState = (loop e2 s2).1.systemState ∧
    (loop e1 s1).1.buzzerStep = (loop e2 s2).1.buzzerStep ∧
    (loop e1 s1).1.buzzerTimer = (loop e2 s2).1.buzzerTimer ∧
    (loop e1 s1).1.lcdScreenOne = (loop e2 s2).1.lcdScreenOne ∧
    (loop e1 s1).1.lastSensorRead = (loop e2 s2).1.lastSensorRead ∧
    (loop e1 s1).1.lastScreenUpdate = (loop e2 s2).1.lastScreenUpdate := by
  have hsens : ∀ m : State, sensorReading e1 m = sensorReading e2 m := by
    intro m
    unfold sensorReading
    rw [ht, hr, hp, hd]
  have hout : ∀ m : State, outputControl e1 m = outputControl e2 m := by
    intro m
    unfold outputControl
    rw [ht]
  have hlcd : ∀ m : State, lcdDashboard e1 m = lcdDashboard e2 m := by
    intro m
    unfold lcdDashboard
    rw [ht]
  have h1 := loop_localView e1 s1
  have h2 := loop_localView e2 s2
  rw [hs, hsens, hout, hlcd] at h1
  have hv : (loop e1 s1).1.localView = (loop e2 s2).1.localView := by
    rw [h1.1, h2.1]
  refine ⟨by rw [h1.2, h2.2], hv, ?_⟩
  exact localView_fields _ _ hv

/-- Witness for `local_signalling_independent`: the same pass with the network up
and the datastore ready, and with the network down. -/
theorem local_signalling_independent_witness :
    (initialState true).localView = (initialState false).localView ∧
    (loop (envAt 150 0) (initialState true)).2.filter Action.isLocal =
      (loop { envAt 150 0 with firebaseReady := false } (initialState false)).2.filter
        Action.isLocal :=
  ⟨rfl, (local_signalling_independent (envAt 150 0)
    { envAt 150 0 with firebaseReady := false } (initialState true) (initialState false)
    rfl rfl rfl rfl rfl).1⟩


/-! ## Dashboard pages -/

/-- Text rendered by section 4 of `loop` when it shows page A (the toggle was
false) and when it shows page B (the toggle was true). -/
theorem lcdDashboard_render (e : Env) (s : State)
    (hg : usub e.currentMillis s.lastScreenUpdate > 3000) :
    (s.lcdScreenOne = false →
      (lcdRender (lcdDashboard e s).2).line1 =
        (if s.systemState = 2 then "STATUS: DANGER!"
         else if s.systemState = 1 then "STATUS: WARNING" else "STATUS: SAFE") ∧
      (lcdRender (lcdDashboard e s).2).line2 =
        "W:" ++ toString (truncToInt s.distance) ++ "cm S:" ++ toString s.soilPercent ++
          "%") ∧
    (s.lcdScreenOne = true →
      (lcdRender (lcdDashboard e s).2).line1 = "Rain Intensity:" ∧
      (lcdRender (lcdDashboard e s).2).line2 =
        (if s.rainRaw < RAIN_HEAVY_THRESH then ">> HEAVY <<"
         else if s.rainRaw < RAIN_LIGHT_THRESH then ">> Moderate <<"
         else ">> None/Light <<")) := by
  constructor
  · intro hp
    simp [lcdDashboard, hg, hp, lcdRender, lcdStep]
  · intro hp
    simp [lcdDashboard, hg, hp, lcdRender, lcdStep]


/-- C15: page B of the dashboard shows ">> HEAVY <<" iff `rain_raw < 1500`,
">> Moderate <<" iff `1500 <= rain_raw < 2500` and ">> None/Light <<" iff
`rain_raw >= 2500`, the thresholds of the classifier; so for every distance and
soil reading, HEAVY or Moderate on the page means the classified state is not SAFE,
and HEAVY with `distance < 55` means it is DANGER. -/
theorem rain_page_thresholds (e : Env) (s : State) (distance : ℚ) (soilPercent : Int)
    (hg : usub e.currentMillis s.lastScreenUpdate > 3000) (hp : s.lcdScreenOne = true) :
    (lcdRender (lcdDashboard e s).2).line1 = "Rain Intensity:" ∧
    ((lcdRender (lcdDashboard e s).2).line2 = ">> HEAVY <<" ↔ s.rainRaw < 1500) ∧
    ((lcdRender (lcdDashboard e s).2).line2 = ">> Moderate <<" ↔
      (1500 ≤ s.rainRaw ∧ s.rainRaw < 2500)) ∧
    ((lcdRender (lcdDashboard e s).2).line2 = ">> None/Light <<" ↔ 2500 ≤ s.rainRaw) ∧
    (((lcdRender (lcdDashboard e s).2).line2 = ">> HEAVY <<" ∨
        (lcdRender (lcdDashboard e s).2).line2 = ">> Moderate <<") →
      classify distance s.rainRaw soilPercent ≠ 0) ∧
    ((lcdRender (lcdDashboard e s).2).line2 = ">> HEAVY <<" → distance < 55 →
      classify distance s.rainRaw soilPercent = 2) := by
  obtain ⟨h1, h2⟩ := (lcdDashboard_render e s hg).2 hp
  obtain ⟨c0, c2, cd, cw⟩ := classify_levels distance s.rainRaw soilPercent
  have hheavy : (lcdRender (lcdDashboard e s).2).line2 = ">> HEAVY <<" ↔
      s.rainRaw < 1500 := by
    rw [h2]
    simp only [RAIN_HEAVY_THRESH, RAIN_LIGHT_THRESH]
    split_ifs with a b
    · exact ⟨fun _ => a, fun _ => rfl⟩
    · exact ⟨fun h => absurd h (by decide), fun h => absurd h a⟩
    · exact ⟨fun h => absurd h (by decide), fun h => absurd h a⟩
  have hmod : (lcdRender (lcdDashboard e s).2).line2 = ">> Moderate <<" ↔
      (1500 ≤ s.rainRaw ∧ s.rainRaw < 2500) := by
    rw [h2]
    simp only [RAIN_HEAVY_THRESH, RAIN_LIGHT_THRESH]
    split_ifs with a b
    · exact ⟨fun h => absurd h (by decide), fun h => by omega⟩
    · exact ⟨fun _ => ⟨by omega, b⟩, fun _ => rfl⟩
    · exact ⟨fun h => absurd h (by decide), fun h => by omega⟩
  have hnone : (lcdRender (lcdDashboard e s).2).line2 = ">> None/Light <<" ↔
      2500 ≤ s.rainRaw := by
    rw [h2]
    simp only [RAIN_HEAVY_THRESH, RAIN_LIGHT_THRESH]
    split_ifs with a b
    · exact ⟨fun h => absurd h (by decide), fun h => by omega⟩
    · exact ⟨fun h => absurd h (by decide), fun h => by omega⟩
    · exact ⟨fun _ => by omega, fun _ => rfl⟩
  refine ⟨h1, hheavy, hmod, hnone, ?_, ?_⟩
  · intro h
    have hr : s.rainRaw < 2500 := by
      rcases h with h | h
      · have := hheavy.mp h
        omega
      · exact (hmod.mp h).2
    have := cw.mpr (Or.inr (Or.inl hr))
    omega
  · intro h hd
    have := cd.mpr (Or.inr ⟨hd, Or.inl (hheavy.mp h)⟩)
    omega

/-- Witness for `rain_page_thresholds`: a rain code of 1000 shown 3001 ms after
start-up. -/
theorem rain_page_thresholds_witness :
    usub 3001 { initialState true with rainRaw := 1000 }.lastScreenUpdate > 3000 ∧
    ((lcdRender (lcdDashboard (envAt 3001 0)
        { initialState true with rainRaw := 1000 }).2).line2 = ">> HEAVY <<" ↔
      { initialState true with rainRaw := 1000 }.rainRaw < 1500) :=
  ⟨by decide, (rain_page_thresholds (envAt 3001 0)
    { initialState true with rainRaw := 1000 } 50 10 (by decide) rfl).2.1⟩

/-- Truncation toward zero of a non-negative rational lying in `[n, n + 1)`. -/
theorem truncToInt_of_bounds (q : ℚ) (n : Int) (h0 : 0 ≤ n) (h1 : (n : ℚ) ≤ q)
    (h2 : q < n + 1) : truncToInt q = n := by
  have hq : 0 ≤ q := le_trans (by exact_mod_cast h0) h1
  unfold truncToInt
  rw [Int.tdiv_eq_ediv (Rat.num_nonneg.mpr hq) (by positivity), ← Rat.floor_def]
  exact Int.floor_eq_iff.mpr ⟨h1, h2⟩

/-- The single-precision value nearest to 40.7. -/
theorem f32_40_7 : f32 (407 / 10) = 10669261 / 262144 := by
  rw [f32_eval (407 / 10) 5 10669261 (by norm_num [abs_of_pos])
    (by norm_num [abs_of_pos]) (by norm_num [abs_lt])]
  norm_num

/-- Line 2 of page A for a distance of 40.7 (as a float) and 10 percent soil. -/
theorem pageA_example :
    (lcdRender (lcdDashboard (envAt 3001 0)
      { initialState true with lcdScreenOne := false, distance := f32 (407 / 10),
                               soilPercent := 10 }).2).line2 = "W:40cm S:10%" := by
  have ht : truncToInt (f32 (407 / 10)) = 40 := by
    rw [f32_40_7]
    exact truncToInt_of_bounds _ 40 (by decide) (by norm_num) (by norm_num)
  rw [((lcdDashboard_render (envAt 3001 0) _ (by decide)).1 rfl).2]
  show "W:" ++ toString (truncToInt (f32 (407 / 10))) ++ "cm S:" ++ toString (10 : Int) ++
    "%" = "W:40cm S:10%"
  rw [ht]
  decide

/-- C16, counterexample: for a distance of 40.7 and 10 percent soil, line 2 of
page A is "W:40cm S:10%", not "40cm S:10%". -/
theorem pageA_line2_has_label :
    (lcdRender (lcdDashboard (envAt 3001 0)
      { initialState true with lcdScreenOne := false, distance := f32 (407 / 10),
                               soilPercent := 10 }).2).line2 = "W:40cm S:10%" ∧
    (lcdRender (lcdDashboard (envAt 3001 0)
      { initialState true with lcdScreenOne := false, distance := f32 (407 / 10),
                               soilPercent := 10 }).2).line2 ≠ "40cm S:10%" := by
  refine ⟨pageA_example, ?_⟩
  rw [pageA_example]
  decide

/-- C16, amended: when page A is rendered its line 1 is "STATUS: DANGER!",
"STATUS: WARNING" or "STATUS: SAFE" according to the state, and its line 2 is "W:"
followed by the integer-truncated distance, "cm S:", the soil percent and "%". -/
theorem pageA_text (e : Env) (s : State)
    (hg : usub e.currentMillis s.lastScreenUpdate > 3000) (hp : s.lcdScreenOne = false) :
    (s.systemState = 2 → (lcdRender (lcdDashboard e s).2).line1 = "STATUS: DANGER!") ∧
    (s.systemState = 1 → (lcdRender (lcdDashboard e s).2).line1 = "STATUS: WARNING") ∧
    (s.systemState = 0 → (lcdRender (lcdDashboard e s).2).line1 = "STATUS: SAFE") ∧
    (lcdRender (lcdDashboard e s).2).line2 =
      "W:" ++ toString (truncToInt s.distance) ++ "cm S:" ++ toString s.soilPercent ++ "%" := by
  obtain ⟨h1, h2⟩ := (lcdDashboard_render e s hg).1 hp
  refine ⟨?_, ?_, ?_, h2⟩
  · intro h; rw [h1, if_pos h]
  · intro h; rw [h1, if_neg (by omega), if_pos h]
  · intro h; rw [h1, if_neg (by omega), if_neg (by omega)]

/-- Witness for `pageA_text`: the DANGER page 3001 ms after start-up. -/
theorem pageA_text_witness :
    (lcdRender (lcdDashboard (envAt 3001 0)
      { initialState true with lcdScreenOne := false, systemState := 2 }).2).line1 =
      "STATUS: DANGER!" :=
  (pageA_text (envAt 3001 0)
    { initialState true with lcdScreenOne := false, systemState := 2 } (by decide) rfl).1 rfl


/-! ## History records and live uploads -/

/-- Unsigned subtraction never exceeds the true difference of two ticks in order. -/
theorem usub_le_sub (a b : Nat) (h : b ≤ a) : usub a b ≤ a - b := by
  unfold usub U32
  omega

/-- The time of the last live upload after one pass of `loop`. -/
theorem loop_lastFirebaseUpload (e : Env) (s : State) :
    (loop e s).1.lastFirebaseUpload =
      (if s.wifiConnected = true ∧ (usub e.currentMillis s.lastFirebaseUpload > 5000 ∨
          (loop e s).1.systemState ≠ s.lastSystemState) then e.currentMillis
       else s.lastFirebaseUpload) := by
  by_cases hw : s.wifiConnected = true
  · rw [(loop_timers e s hw).2.2.1]
    simp only [hw, true_and]
  · rw [if_neg (fun h => hw h.1)]
    obtain ⟨t4, p4, h4⟩ := lcdDashboard_shape e
      (outputControl e (smartUpload e (sensorReading e s).1).1).1
    obtain ⟨g, y, r, st, tm, hh, l, h3⟩ := outputControl_shape e
      (smartUpload e (sensorReading e s).1).1
    have hf := sensorReading_frame e s
    have h2 : smartUpload e (sensorReading e s).1 = ((sensorReading e s).1, []) := by
      unfold smartUpload
      rw [if_neg (by rw [hf.2.2.2]; exact hw)]
    have e0 : (loop e s).1 =
        (lcdDashboard e (outputControl e (smartUpload e (sensorReading e s).1).1).1).1 := rfl
    rw [e0, h4]
    simp only [h3]
    rw [h2]
    exact hf.2.1

/-- After a run of passes the time of the last live upload is the one before the
run or the tick of one of its passes. -/
theorem run_lastFirebaseUpload (es : List Env) (s : State) :
    (run es s).1.lastFirebaseUpload = s.lastFirebaseUpload ∨
    ∃ e ∈ es, (run es s).1.lastFirebaseUpload = e.currentMillis := by
  induction es generalizing s with
  | nil => exact Or.inl rfl
  | cons e rest ih =>
    have hrun : (run (e :: rest) s).1 = (run rest (loop e s).1).1 := rfl
    rw [hrun]
    rcases ih (loop e s).1 with h | ⟨e1, he1, h⟩
    · rw [h, loop_lastFirebaseUpload]
      split_ifs
      · exact Or.inr ⟨e, List.mem_cons_self _ _, rfl⟩
      · exact Or.inl rfl
    · exact Or.inr ⟨e1, List.mem_cons_of_mem _ he1, h⟩

/-- C18: a history record is appended only in a pass in which the live upload
fires: a pass with no state change and not more than 5000 ms since the last live
upload appends none, whatever the state and the time since the last history log;
hence if a pass at tick `t1` and a later pass at tick `t2` both append a record and
the later one sees no state change, then `t2 - t1 > 5000` (ticks taken in order). -/
theorem history_only_with_upload (s : State) (e1 : Env) (mid : List Env) (e2 : Env)
    (hlo : ∀ e ∈ mid, e1.currentMillis ≤ e.currentMillis)
    (hhi : ∀ e ∈ mid, e.currentMillis ≤ e2.currentMillis)
    (h12 : e1.currentMillis ≤ e2.currentMillis)
    (hrec1 : historyCount (loop e1 s).2 = 1)
    (hrec2 : historyCount (loop e2 (run mid (loop e1 s).1).1).2 = 1)
    (hsame : (loop e2 (run mid (loop e1 s).1).1).1.systemState =
      (run mid (loop e1 s).1).1.lastSystemState) :
    e1.currentMillis + 5000 < e2.currentMillis ∧
    (∀ (e : Env) (s0 : State), (loop e s0).1.systemState = s0.lastSystemState →
      usub e.currentMillis s0.lastFirebaseUpload ≤ 5000 →
      historyCount (loop e s0).2 = 0 ∧ Action.firebaseReady ∉ (loop e s0).2) ∧
    (∀ (e : Env) (s0 : State), historyCount (loop e s0).2 ≠ 0 →
      Action.firebaseReady ∈ (loop e s0).2) := by
  have hmem : ∀ (e : Env) (s0 : State), Action.firebaseReady ∈ (loop e s0).2 ↔
      (s0.wifiConnected = true ∧ (usub e.currentMillis s0.lastFirebaseUpload > 5000 ∨
        (loop e s0).1.systemState ≠ s0.lastSystemState)) := by
    intro e s0
    have hf := sensorReading_frame e s0
    rw [firebaseReady_mem_loop, firebaseReady_mem_smartUpload, hf.1, hf.2.1, hf.2.2.2,
      loop_systemState]
  refine ⟨?_, ?_, ?_⟩
  · have c1 := historyCount_loop e1 s
    rw [hrec1] at c1
    have g1 : s.wifiConnected = true ∧ (usub e1.currentMillis s.lastFirebaseUpload > 5000 ∨
        (loop e1 s).1.systemState ≠ s.lastSystemState) := by
      by_contra hn
      rw [if_neg (fun h => hn ⟨h.1, h.2.1⟩)] at c1
      exact absurd c1 (by decide)
    have hl1 : (loop e1 s).1.lastFirebaseUpload = e1.currentMillis := by
      rw [loop_lastFirebaseUpload, if_pos g1]
    have c2 := historyCount_loop e2 (run mid (loop e1 s).1).1
    rw [hrec2] at c2
    have g2 : usub e2.currentMillis (run mid (loop e1 s).1).1.lastFirebaseUpload > 5000 := by
      by_contra hn
      rw [if_neg (fun h => by
        rcases h.2.1 with h3 | h3
        · exact hn h3
        · exact h3 hsame)] at c2
      exact absurd c2 (by decide)
    have hb : e1.currentMillis ≤ (run mid (loop e1 s).1).1.lastFirebaseUpload ∧
        (run mid (loop e1 s).1).1.lastFirebaseUpload ≤ e2.currentMillis := by
      rcases run_lastFirebaseUpload mid (loop e1 s).1 with h | ⟨e, he, h⟩
      · rw [h, hl1]; exact ⟨le_refl _, h12⟩
      · rw [h]; exact ⟨hlo e he, hhi e he⟩
    have hu := usub_le_sub _ _ hb.2
    omega
  · intro e s0 hst ht
    have hno : ¬ (s0.wifiConnected = true ∧
        (usub e.currentMillis s0.lastFirebaseUpload > 5000 ∨
          (loop e s0).1.systemState ≠ s0.lastSystemState)) := by
      rintro ⟨_, h3 | h3⟩
      · omega
      · exact h3 hst
    refine ⟨?_, fun h => hno ((hmem e s0).mp h)⟩
    rw [historyCount_loop, if_neg (fun h => hno ⟨h.1, h.2.1⟩)]
  · intro e s0 hne
    rw [hmem]
    by_contra hn
    rw [historyCount_loop, if_neg (fun h => hn ⟨h.1, h.2.1⟩)] at hne
    exact hne rfl

/-- Witness for `history_only_with_upload`: two SAFE passes that both log because
the 300000 ms history period has elapsed, 399999 ms apart. -/
theorem history_only_with_upload_witness :
    historyCount (loop (envAt 300001 0) (initialState true)).2 = 1 ∧
    historyCount (loop (envAt 700000 0)
      (run [] (loop (envAt 300001 0) (initialState true)).1).1).2 = 1 ∧
    (envAt 300001 0).currentMillis + 5000 < (envAt 700000 0).currentMillis :=
  ⟨by decide, by decide,
    (history_only_with_upload (initialState true) (envAt 300001 0) [] (envAt 700000 0)
      (fun _ h => absurd h (List.not_mem_nil _))
      (fun _ h => absurd h (List.not_mem_nil _))
      (by decide) (by decide) (by decide) (by decide)).1⟩

end AquaSystem
